import Mathlib

/-!
Shallow embedding of the stargazer scan/discovery engine
(`src/utils.py`, `src/k8s_client.py`, `src/discovery.py`,
`src/command_validator.py`) and proofs about the claims of its
specification.

Conventions of the embedding:
* Python strings are Lean `String`; character-level operations (`in`,
  slicing, `len`, `split()`) work on `String.data` so that everything is
  executable and kernel-reducible.
* Python `datetime` values that are only compared as instants (the cache
  timestamps, event timestamps, `datetime.now()`) are epoch seconds
  (`Nat`).  The calendar structure of a `datetime` only matters for the
  `isoformat`/`fromisoformat` round trip, which is modelled by
  `PyDatetime` below.
* Fallible control-plane reads are `Option`/`Except` values supplied as
  parameters: `none`/`.error` is the `ApiException` branch of the source.
* `asyncio.gather(..., return_exceptions=True)` delivers, in task order,
  either a rule's list of issues or the exception the rule raised; the
  fan-in loop of `Discovery.scan_all` is modelled on
  `List (Except String (List Issue))`.
-/

namespace Stargazer

/-! ### Decimal digit strings

Executable decimal rendering/parsing used by the embedding: Python's
`str(int)` for `generate_issue_id`, and zero-padded fields for
`datetime.isoformat`.  `digitsFuel` is little-endian and structural on
its fuel argument so that the kernel can evaluate it. -/

/-- Little-endian decimal digits of `n`, with explicit fuel (`[]` for `0`). -/
def digitsFuel : Nat → Nat → List Nat
  | 0, _ => []
  | f + 1, n => if n = 0 then [] else n % 10 :: digitsFuel f (n / 10)

/-- Big-endian decimal digit characters of `n` (empty for `0`). -/
def natChars (n : Nat) : List Char :=
  ((digitsFuel n n).reverse).map (fun d => Char.ofNat (48 + d))

/-- Python `str(n)` for a natural number. -/
def natStr (n : Nat) : String :=
  String.mk (if n = 0 then ['0'] else natChars n)

/-- `n` rendered in decimal, left-padded with `'0'` to width `k`. -/
def padChars (k n : Nat) : List Char :=
  List.replicate (k - (natChars n).length) '0' ++ natChars n

/-- Decimal value of a big-endian digit-character list. -/
def parseDigits (l : List Char) : Nat :=
  l.foldl (fun a c => a * 10 + (c.toNat - 48)) 0

theorem digitsFuel_foldr (f : Nat) :
    ∀ n, n ≤ f → (digitsFuel f n).foldr (fun d a => d + 10 * a) 0 = n := by
  induction f with
  | zero => intro n hn; interval_cases n; simp [digitsFuel]
  | succ f ih =>
    intro n hn
    by_cases h0 : n = 0
    · simp [digitsFuel, h0]
    · have hdiv : n / 10 ≤ f := by
        have : n / 10 < n := Nat.div_lt_self (Nat.pos_of_ne_zero h0) (by omega)
        omega
      simp only [digitsFuel, h0, if_false, List.foldr_cons, ih _ hdiv]
      omega

theorem digitsFuel_mem_lt (f : Nat) :
    ∀ n, ∀ d ∈ digitsFuel f n, d < 10 := by
  induction f with
  | zero => intro n d hd; simp [digitsFuel] at hd
  | succ f ih =>
    intro n d hd
    by_cases h0 : n = 0
    · simp [digitsFuel, h0] at hd
    · simp only [digitsFuel, h0, if_false, List.mem_cons] at hd
      rcases hd with h | h
      · omega
      · exact ih _ _ h

theorem digitsFuel_length (f : Nat) :
    ∀ n k, n < 10 ^ k → (digitsFuel f n).length ≤ k := by
  induction f with
  | zero => intro n k _; simp [digitsFuel]
  | succ f ih =>
    intro n k hk
    by_cases h0 : n = 0
    · simp [digitsFuel, h0]
    · have hk0 : k ≠ 0 := by
        rintro rfl
        simp at hk
        omega
      obtain ⟨k, rfl⟩ := Nat.exists_eq_succ_of_ne_zero hk0
      have hdiv : n / 10 < 10 ^ k := by
        rw [Nat.div_lt_iff_lt_mul (by omega)]
        calc n < 10 ^ (k + 1) := hk
        _ = 10 ^ k * 10 := by ring
      simp only [digitsFuel, h0, if_false, List.length_cons]
      exact Nat.succ_le_succ (ih _ _ hdiv)

theorem natChars_length_le (n k : Nat) (h : n < 10 ^ k) :
    (natChars n).length ≤ k := by
  simpa [natChars] using digitsFuel_length n n k h

theorem padChars_length (k n : Nat) (h : n < 10 ^ k) :
    (padChars k n).length = k := by
  have := natChars_length_le n k h
  simp only [padChars, List.length_append, List.length_replicate]
  omega

theorem parseDigits_replicate_zero (m : Nat) (l : List Char) :
    parseDigits (List.replicate m '0' ++ l) = parseDigits l := by
  induction m with
  | zero => simp
  | succ m ih =>
    simpa [List.replicate_succ, parseDigits] using ih

theorem toNat_digitChar (d : Nat) (h : d < 10) :
    (Char.ofNat (48 + d)).toNat = 48 + d := by
  interval_cases d <;> decide

theorem parseDigits_append_single (xs : List Char) (c : Char) :
    parseDigits (xs ++ [c]) = parseDigits xs * 10 + (c.toNat - 48) := by
  simp [parseDigits, List.foldl_append]

theorem parseDigits_bigEndian (L : List Nat) (h : ∀ d ∈ L, d < 10) :
    parseDigits ((L.reverse).map (fun d => Char.ofNat (48 + d))) =
      L.foldr (fun d a => d + 10 * a) 0 := by
  induction L with
  | nil => simp [parseDigits]
  | cons d rest ih =>
    have hd : d < 10 := h d (by simp)
    rw [List.reverse_cons, List.map_append, List.map_cons, List.map_nil,
      parseDigits_append_single, toNat_digitChar d hd,
      ih (fun x hx => h x (by simp [hx])), List.foldr_cons]
    omega

theorem parseDigits_natChars (n : Nat) : parseDigits (natChars n) = n := by
  rw [natChars, parseDigits_bigEndian _ (digitsFuel_mem_lt n n),
    digitsFuel_foldr n n (Nat.le_refl n)]

theorem parseDigits_padChars (k n : Nat) : parseDigits (padChars k n) = n := by
  rw [padChars, parseDigits_replicate_zero, parseDigits_natChars]

/-! ### String helpers (Python `in`, `len`, slicing, `split()`) -/

/-- Python `needle in haystack` on lists of characters. -/
def isSubList : List Char → List Char → Bool
  | n, [] => n.isEmpty
  | n, c :: rest => n.isPrefixOf (c :: rest) || isSubList n rest

/-- Python substring test `needle in haystack`. -/
def strContains (haystack needle : String) : Bool :=
  isSubList needle.data haystack.data

/-- Python `len(s)` (character count). -/
def strLen (s : String) : Nat := s.data.length

/-- Python `s[:n]` (first `n` characters). -/
def strTake (s : String) (n : Nat) : String := String.mk (s.data.take n)

/-- Python `str.split()` with no argument: split on runs of whitespace,
dropping empty chunks. -/
def splitWs (cs : List Char) : List (List Char) :=
  (cs.foldr
    (fun c acc =>
      if c.isWhitespace then [] :: acc
      else
        match acc with
        | [] => [[c]]
        | w :: ws => (c :: w) :: ws)
    []).filter (fun w => !w.isEmpty)

/-! ### `src/utils.py` -/

/-- `Priority` enum of `src/utils.py`: `CRITICAL = "critical"`,
`WARNING = "warning"`, `INFO = "info"`. -/
inductive Priority where
  | critical
  | warning
  | info
  deriving DecidableEq, Repr

/-- `Priority.value`: the lowercase tag of the enum member. -/
def Priority.value : Priority → String
  | .critical => "critical"
  | .warning => "warning"
  | .info => "info"

/-- `Priority(tag)` enum construction by value: fails on an unknown tag
(Python raises `ValueError`). -/
def Priority.ofValue (s : String) : Option Priority :=
  if s = "critical" then some .critical
  else if s = "warning" then some .warning
  else if s = "info" then some .info
  else none

/-- `generate_issue_id` of `src/utils.py`:
`f"{resource_name}-{issue_type}-{int(datetime.now().timestamp())}"`.
The call reads the wall clock; `now` is the whole-second Unix timestamp
that `int(datetime.now().timestamp())` yields at the instant of the call. -/
def generate_issue_id (resource_name issue_type : String) (now : Nat) : String :=
  resource_name ++ "-" ++ issue_type ++ "-" ++ natStr now

/-- The `Issue` class of `src/utils.py`.  `τ` is the type used for the
`timestamp` field: `PyDatetime` where the serialization round trip is at
stake, plain epoch seconds (`Nat`) in the scan engine, where the
timestamp is never inspected. -/
structure Issue (τ : Type) where
  id : String
  title : String
  description : String
  priority : Priority
  resource_type : String
  resource_name : String
  «namespace» : String
  timestamp : τ
  deriving DecidableEq, Repr

/-- A timezone-aware UTC Python `datetime` value, as stored in
`Issue.timestamp`.  The bounds are the field widths of the ISO-8601
rendering (Python's own bounds are tighter: `year ≤ 9999`, `month ≤ 12`,
…, `microsecond ≤ 999999`). -/
structure PyDatetime where
  year : Nat
  month : Nat
  day : Nat
  hour : Nat
  minute : Nat
  second : Nat
  microsecond : Nat
  valid : year < 10000 ∧ month < 100 ∧ day < 100 ∧ hour < 100 ∧
    minute < 100 ∧ second < 100 ∧ microsecond < 1000000

/-- `datetime.isoformat()` for an aware UTC value:
`YYYY-MM-DDTHH:MM:SS[.ffffff]+00:00`, the fractional part omitted when
`microsecond == 0`. -/
def isoformat (t : PyDatetime) : String :=
  String.mk
    (padChars 4 t.year ++ '-' ::
      (padChars 2 t.month ++ '-' ::
        (padChars 2 t.day ++ 'T' ::
          (padChars 2 t.hour ++ ':' ::
            (padChars 2 t.minute ++ ':' ::
              (padChars 2 t.second ++
                ((if t.microsecond = 0 then [] else '.' :: padChars 6 t.microsecond) ++
                  ['+', '0', '0', ':', '0', '0'])))))))

/-- Modelled from the Python standard library: `datetime.fromisoformat`,
restricted to the fixed-position layout produced by `isoformat` above.
Separator validation is elided (it cannot fail on a string in the image
of `isoformat`); a parse whose fields exceed the ISO field widths fails,
as the stdlib parse does. -/
def fromisoformat (s : String) : Option PyDatetime :=
  let cs := s.data
  let year := parseDigits (cs.take 4)
  let r1 := cs.drop 5
  let month := parseDigits (r1.take 2)
  let r2 := r1.drop 3
  let day := parseDigits (r2.take 2)
  let r3 := r2.drop 3
  let hour := parseDigits (r3.take 2)
  let r4 := r3.drop 3
  let minute := parseDigits (r4.take 2)
  let r5 := r4.drop 3
  let second := parseDigits (r5.take 2)
  let r6 := r5.drop 2
  let microsecond :=
    match r6 with
    | '.' :: ms => parseDigits (ms.take 6)
    | _ => 0
  if h : year < 10000 ∧ month < 100 ∧ day < 100 ∧ hour < 100 ∧
      minute < 100 ∧ second < 100 ∧ microsecond < 1000000 then
    some ⟨year, month, day, hour, minute, second, microsecond, h⟩
  else none

theorem take_append_len {α : Type} (l₁ l₂ : List α) (n : Nat)
    (h : l₁.length = n) : (l₁ ++ l₂).take n = l₁ := by
  subst h; exact List.take_left l₁ l₂

theorem drop_append_len {α : Type} (l₁ l₂ : List α) (n : Nat)
    (h : l₁.length = n) : (l₁ ++ l₂).drop n = l₂ := by
  subst h; exact List.drop_left l₁ l₂

theorem drop_append_len_succ {α : Type} (l₁ l₂ : List α) (c : α) (n : Nat)
    (h : l₁.length = n) : (l₁ ++ c :: l₂).drop (n + 1) = l₂ := by
  have : l₁ ++ c :: l₂ = (l₁ ++ [c]) ++ l₂ := by simp
  rw [this, drop_append_len]
  simp [h]

set_option maxHeartbeats 400000 in
/-- The ISO round trip: parsing back a rendered aware UTC datetime
reconstructs it exactly. -/
theorem fromisoformat_isoformat (t : PyDatetime) :
    fromisoformat (isoformat t) = some t := by
  obtain ⟨y, mo, d, h, mi, s, us, hv⟩ := t
  obtain ⟨hy, hmo, hd, hh, hmi, hs, hus⟩ := hv
  have lY : (padChars 4 y).length = 4 := padChars_length 4 y (by simpa using hy)
  have lMo : (padChars 2 mo).length = 2 := padChars_length 2 mo (by simpa using hmo)
  have lD : (padChars 2 d).length = 2 := padChars_length 2 d (by simpa using hd)
  have lH : (padChars 2 h).length = 2 := padChars_length 2 h (by simpa using hh)
  have lMi : (padChars 2 mi).length = 2 := padChars_length 2 mi (by simpa using hmi)
  have lS : (padChars 2 s).length = 2 := padChars_length 2 s (by simpa using hs)
  have lUs : (padChars 6 us).length = 6 := padChars_length 6 us (by simpa using hus)
  unfold fromisoformat isoformat
  dsimp only
  rw [take_append_len _ _ _ lY, drop_append_len_succ _ _ _ _ lY,
    take_append_len _ _ _ lMo, drop_append_len_succ _ _ _ _ lMo,
    take_append_len _ _ _ lD, drop_append_len_succ _ _ _ _ lD,
    take_append_len _ _ _ lH, drop_append_len_succ _ _ _ _ lH,
    take_append_len _ _ _ lMi, drop_append_len_succ _ _ _ _ lMi,
    take_append_len _ _ _ lS, drop_append_len _ _ _ lS]
  by_cases hz : us = 0
  · subst hz
    simp only [if_pos rfl, if_true, List.nil_append]
    rw [parseDigits_padChars, parseDigits_padChars, parseDigits_padChars,
      parseDigits_padChars, parseDigits_padChars, parseDigits_padChars]
    have hM :
        (match (['+', '0', '0', ':', '0', '0'] : List Char) with
          | '.' :: ms => parseDigits (List.take 6 ms)
          | _ => 0) = 0 := rfl
    simp only [hM]
    rw [dif_pos ⟨hy, hmo, hd, hh, hmi, hs, by norm_num⟩]
  · simp only [if_neg hz, List.cons_append, take_append_len _ _ _ lUs,
      parseDigits_padChars]
    rw [dif_pos ⟨hy, hmo, hd, hh, hmi, hs, hus⟩]


/-- The serialized (JSON-ready) form of an `Issue`: the flat string-keyed
dict built by `Issue.to_dict`. -/
structure IssueDict where
  id : String
  title : String
  description : String
  priority : String
  resource_type : String
  resource_name : String
  «namespace» : String
  timestamp : String
  deriving DecidableEq, Repr

/-- `Issue.to_dict` of `src/utils.py`: flat field mapping,
`priority.value` for the priority, `timestamp.isoformat()` for the
timestamp. -/
def Issue.to_dict (i : Issue PyDatetime) : IssueDict :=
  { id := i.id
    title := i.title
    description := i.description
    priority := i.priority.value
    resource_type := i.resource_type
    resource_name := i.resource_name
    «namespace» := i.«namespace»
    timestamp := isoformat i.timestamp }

/-- `Issue.from_dict` of `src/utils.py`: `Priority(data["priority"])` and
`datetime.fromisoformat(data["timestamp"])`; an unknown tag or a bad
timestamp raises in Python, hence `Option` here.  (`data.get("namespace",
"default")` always finds the key on a dict produced by `to_dict`.) -/
def Issue.from_dict (data : IssueDict) : Option (Issue PyDatetime) :=
  match Priority.ofValue data.priority, fromisoformat data.timestamp with
  | some p, some t =>
    some
      { id := data.id
        title := data.title
        description := data.description
        priority := p
        resource_type := data.resource_type
        resource_name := data.resource_name
        «namespace» := data.«namespace»
        timestamp := t }
  | _, _ => none

theorem Priority.ofValue_value (p : Priority) : Priority.ofValue p.value = some p := by
  cases p <;> rfl

/-! ### `src/k8s_client.py`

The client is a state value (configured namespace + cache) threaded
through the calls.  The live control plane is a `Cluster` of read
functions supplied as a parameter; a `none` result is the
`ApiException` branch of the source.  Each list call returns
`(result, new client state, live_read_attempted)`. -/

/-- A container status entry of a pod's control-plane record. -/
structure ContainerStatus where
  ready : Bool
  restart_count : Nat
  deriving DecidableEq, Repr

/-- A pod as returned by the control-plane list API (the fields
`k8s_client.py` reads).  `none` models Python `None`. -/
structure RawPod where
  name : String
  «namespace» : String
  phase : String
  node_name : Option String
  container_statuses : Option (List ContainerStatus)
  creation_timestamp : Option Nat
  labels : Option (List (String × String))
  deriving DecidableEq, Repr

/-- An event as returned by the control-plane list API with
`field_selector="type!=Normal"` already applied. -/
structure RawEvent where
  name : String
  «namespace» : String
  type : String
  reason : String
  message : String
  object_kind : String
  object_name : String
  last_timestamp : Option Nat
  first_timestamp : Option Nat
  deriving DecidableEq, Repr

/-- A deployment as returned by the control-plane list API. -/
structure RawDeployment where
  name : String
  «namespace» : String
  replicas : Int
  ready_replicas : Option Int
  updated_replicas : Option Int
  available_replicas : Option Int
  creation_timestamp : Option Nat
  labels : Option (List (String × String))
  deriving DecidableEq, Repr

/-- The dict built per pod by `K8sClient.get_pods`. -/
structure PodDict where
  name : String
  «namespace» : String
  status : String
  node : Option String
  ready : Bool
  restarts : Nat
  age : String
  labels : List (String × String)
  events : List String
  deriving DecidableEq, Repr

/-- The dict built per event by `K8sClient.get_events`. -/
structure EventDict where
  name : String
  «namespace» : String
  type : String
  reason : String
  message : String
  object_kind : String
  object_name : String
  timestamp : Option Nat
  age : String
  deriving DecidableEq, Repr

/-- The dict built per deployment by `K8sClient.get_deployments`. -/
structure DeploymentDict where
  name : String
  «namespace» : String
  replicas : Int
  ready : Int
  up_to_date : Int
  available : Int
  age : String
  labels : List (String × String)
  deriving DecidableEq, Repr

/-- A value stored in `self.cache`: the payload under a `pods-…`,
`events-…` or `deployments-…` key. -/
inductive CacheData where
  | pods : List PodDict → CacheData
  | events : List EventDict → CacheData
  | deployments : List DeploymentDict → CacheData
  deriving DecidableEq, Repr

/-- One cache slot: `{"data": …, "timestamp": …}`. -/
structure CacheEntry where
  data : CacheData
  timestamp : Nat
  deriving DecidableEq, Repr

/-- The mutable state of a `K8sClient`: the configured namespace and the
string-keyed cache dict. -/
structure K8sClient where
  «namespace» : String
  cache : List (String × CacheEntry)
  cache_ttl : Nat := 30
  deriving DecidableEq, Repr

/-- Python dict lookup `self.cache[key]` / `key in self.cache`. -/
def assocFind (cache : List (String × CacheEntry)) (key : String) :
    Option CacheEntry :=
  match cache with
  | [] => none
  | (k, v) :: rest => if k = key then some v else assocFind rest key

/-- Python dict assignment `self.cache[key] = value`. -/
def assocSet (cache : List (String × CacheEntry)) (key : String)
    (v : CacheEntry) : List (String × CacheEntry) :=
  match cache with
  | [] => [(key, v)]
  | (k, v') :: rest =>
    if k = key then (k, v) :: rest else (k, v') :: assocSet rest key v

/-- Python `namespace or self.namespace`: `None` and `""` are falsy. -/
def pyOrStr (v : Option String) (dflt : String) : String :=
  match v with
  | none => dflt
  | some s => if s = "" then dflt else s

/-- `K8sClient._is_cache_valid`: the key is present and
`now - fetched_at < cache_ttl`.  (For `now < fetched_at` Python's
negative `timedelta` also compares `< ttl`; truncated `Nat` subtraction
gives the same verdict.) -/
def K8sClient.is_cache_valid (c : K8sClient) (cache_key : String)
    (now : Nat) : Bool :=
  match assocFind c.cache cache_key with
  | none => false
  | some e => now - e.timestamp < c.cache_ttl

/-- `K8sClient._get_from_cache`: the stored data if the entry is valid,
else `None`. -/
def K8sClient.get_from_cache (c : K8sClient) (cache_key : String)
    (now : Nat) : Option CacheData :=
  if c.is_cache_valid cache_key now then
    (assocFind c.cache cache_key).map (·.data)
  else none

/-- `K8sClient._set_cache`: store `(data, now)` under the key. -/
def K8sClient.set_cache (c : K8sClient) (cache_key : String)
    (data : CacheData) (now : Nat) : K8sClient :=
  { c with cache := assocSet c.cache cache_key ⟨data, now⟩ }

/-- `K8sClient.clear_cache`: `self.cache.clear()`. -/
def K8sClient.clear_cache (c : K8sClient) : K8sClient :=
  { c with cache := [] }

/-- `K8sClient._is_pod_ready`: `False` when `container_statuses` is
`None` or empty, else the AND over the container `ready` flags. -/
def K8sClient.is_pod_ready (pod : RawPod) : Bool :=
  let cs := pod.container_statuses.getD []
  if cs.isEmpty then false else cs.all (·.ready)

/-- `K8sClient._calculate_age` (epoch-second instants, assuming
`now ≥ timestamp` as holds for creation timestamps). -/
def K8sClient.calculate_age (timestamp : Option Nat) (now : Nat) : String :=
  match timestamp with
  | none => "Unknown"
  | some t =>
    let age := now - t
    let days := age / 86400
    let seconds := age % 86400
    if days > 0 then natStr days ++ "d"
    else if seconds > 3600 then natStr (seconds / 3600) ++ "h"
    else if seconds > 60 then natStr (seconds / 60) ++ "m"
    else natStr seconds ++ "s"

/-- The per-pod dict construction inside `K8sClient.get_pods`. -/
def podEntry (now : Nat) (pod : RawPod) : PodDict :=
  { name := pod.name
    «namespace» := pod.«namespace»
    status := pod.phase
    node := pod.node_name
    ready := K8sClient.is_pod_ready pod
    restarts := (pod.container_statuses.getD []).foldl
      (fun a c => a + c.restart_count) 0
    age := K8sClient.calculate_age pod.creation_timestamp now
    labels := pod.labels.getD []
    events := [] }

/-- The per-event dict construction inside `K8sClient.get_events`. -/
def eventEntry (now : Nat) (e : RawEvent) : EventDict :=
  { name := e.name
    «namespace» := e.«namespace»
    type := e.type
    reason := e.reason
    message := e.message
    object_kind := e.object_kind
    object_name := e.object_name
    timestamp := e.last_timestamp
    age := K8sClient.calculate_age e.first_timestamp now }

/-- The per-deployment dict construction inside
`K8sClient.get_deployments` (`or 0` on the optional status counts). -/
def deploymentEntry (now : Nat) (d : RawDeployment) : DeploymentDict :=
  { name := d.name
    «namespace» := d.«namespace»
    replicas := d.replicas
    ready := d.ready_replicas.getD 0
    up_to_date := d.updated_replicas.getD 0
    available := d.available_replicas.getD 0
    age := K8sClient.calculate_age d.creation_timestamp now
    labels := d.labels.getD [] }

/-- The live control plane: the three namespaced list reads consumed by
the client.  `none` is a raised `ApiException`. -/
structure Cluster where
  pods : String → Option (List RawPod)
  events : String → Option (List RawEvent)
  deployments : String → Option (List RawDeployment)

/-- `K8sClient.get_pods`.  Returns the pod dicts, the client state after
the call, and whether a live read was attempted.  The `if cached:` test
of the source is Python truthiness: `None` and the empty list both fall
through to the live read.  (A cache hit under a `pods-…` key always
holds a `CacheData.pods` payload; the wildcard row is unreachable.) -/
def K8sClient.get_pods (c : K8sClient) («namespace» : Option String)
    (now : Nat) (cluster : Cluster) : List PodDict × K8sClient × Bool :=
  let ns := pyOrStr «namespace» c.«namespace»
  let cache_key := "pods-" ++ ns
  let live :=
    match cluster.pods ns with
    | some raw =>
      let pod_list := raw.map (podEntry now)
      (pod_list, c.set_cache cache_key (.pods pod_list) now, true)
    | none => ([], c, true)
  match c.get_from_cache cache_key now with
  | some (.pods l) => if !l.isEmpty then (l, c, false) else live
  | _ => live

/-- `K8sClient.get_events` (same caching shape as `get_pods`; the
`type!=Normal` field selector is part of the `Cluster.events` read). -/
def K8sClient.get_events (c : K8sClient) («namespace» : Option String)
    (now : Nat) (cluster : Cluster) : List EventDict × K8sClient × Bool :=
  let ns := pyOrStr «namespace» c.«namespace»
  let cache_key := "events-" ++ ns
  let live :=
    match cluster.events ns with
    | some raw =>
      let event_list := raw.map (eventEntry now)
      (event_list, c.set_cache cache_key (.events event_list) now, true)
    | none => ([], c, true)
  match c.get_from_cache cache_key now with
  | some (.events l) => if !l.isEmpty then (l, c, false) else live
  | _ => live

/-- `K8sClient.get_deployments` (same caching shape as `get_pods`). -/
def K8sClient.get_deployments (c : K8sClient) («namespace» : Option String)
    (now : Nat) (cluster : Cluster) :
    List DeploymentDict × K8sClient × Bool :=
  let ns := pyOrStr «namespace» c.«namespace»
  let cache_key := "deployments-" ++ ns
  let live :=
    match cluster.deployments ns with
    | some raw =>
      let deployment_list := raw.map (deploymentEntry now)
      (deployment_list, c.set_cache cache_key (.deployments deployment_list) now,
        true)
    | none => ([], c, true)
  match c.get_from_cache cache_key now with
  | some (.deployments l) => if !l.isEmpty then (l, c, false) else live
  | _ => live

/-- `K8sClient.get_pod_logs`: no cache interaction; the raw log text on
success, `f"Error getting logs: {e}"` on `ApiException`.  `read_log`
models `v1.read_namespaced_pod_log(name, namespace, tail_lines)`. -/
def K8sClient.get_pod_logs (c : K8sClient) (pod_name : String)
    («namespace» : Option String) (lines : Nat)
    (read_log : String → String → Nat → Except String String) :
    String × K8sClient :=
  let ns := pyOrStr «namespace» c.«namespace»
  match read_log pod_name ns lines with
  | .ok logs => (logs, c)
  | .error e => ("Error getting logs: " ++ e, c)

/-! ### `src/discovery.py`

Each scan rule takes the rule argument namespace, the current instant
and the cluster, and returns its issues plus the client state after its
reads.  In the source every rule is guarded (`try`/`except` around the
client call, or around the whole body for the heuristic rules), and the
`asyncio.gather(..., return_exceptions=True)` fan-in of `scan_all`
consumes exceptions as values; `scan_all_gather` below is that fan-in
loop over `Except` values. -/

/-- Python `str(i)` for an `int`. -/
def intStr (i : Int) : String :=
  if i < 0 then "-" ++ natStr i.natAbs else natStr i.natAbs

/-- Python `s.lower()`. -/
def strLower (s : String) : String := String.mk (s.data.map Char.toLower)

/-- Python `l[-n:]`: the last `n` elements. -/
def lastN {α : Type} (l : List α) (n : Nat) : List α := l.drop (l.length - n)

/-- Python `str(labels)` for a string-keyed dict of strings:
`{'k': 'v', ...}`. -/
def dictRepr (labels : List (String × String)) : String :=
  "\x7b" ++
    String.intercalate ", "
      (labels.map (fun kv => "\x27" ++ kv.1 ++ "\x27: \x27" ++ kv.2 ++ "\x27")) ++
    "\x7d"

/-- `Discovery`: the shared client and the pod namespace resolved at
construction (`get_pod_namespace()`, i.e. `POD_NAMESPACE` or
`"default"`). -/
structure Discovery where
  k8s_client : K8sClient
  «namespace» : String

/-- The namespace normalization at the top of `Discovery.scan_all`:
`"all"`, `""` and `None` all become `None`; anything else is passed
through. -/
def Discovery.scanAllNs («namespace» : Option String) : Option String :=
  if «namespace» = some "all" ∨ «namespace» = some "" ∨ «namespace» = none
  then none else «namespace»

/-- The namespace normalization at the top of every scan rule:
`"all"`/`""`/`None` become `None`, else `namespace or self.namespace`
(the `or` can only pick the left side there, the value being a non-empty
string). -/
def Discovery.ruleNs (d : Discovery) («namespace» : Option String) :
    Option String :=
  if «namespace» = some "all" ∨ «namespace» = some "" ∨ «namespace» = none
  then none
  else some (pyOrStr «namespace» d.«namespace»)

/-- The body of the per-pod loop of `Discovery._scan_pods`: the pod
status check, the restart-count check and the readiness check, in
order. -/
def podIssues (now : Nat) (pod : PodDict) : List (Issue Nat) :=
  (if ¬ (pod.status = "Running" ∨ pod.status = "Succeeded") then
    [{ id := generate_issue_id pod.name "status" now
       title := "Pod " ++ pod.name ++ " in " ++ pod.status ++ " state"
       description := "Pod is in " ++ pod.status ++
         " state instead of Running." ++
         (if pod.status = "CrashLoopBackOff" ∨ pod.status = "Error" then
           " Container is crashing. Check logs with: kubectl logs " ++
             pod.name ++ " -n " ++ pod.«namespace» ++ " --previous"
         else if pod.status = "Pending" then
           " Pod cannot be scheduled. Check events with: kubectl get events -n " ++
             pod.«namespace» ++ " --field-selector involvedObject.name=" ++
             pod.name
         else if pod.status = "Failed" then
           " Pod has failed. Check describe output: kubectl describe pod " ++
             pod.name ++ " -n " ++ pod.«namespace»
         else "")
       priority :=
         if pod.status = "Failed" ∨ pod.status = "CrashLoopBackOff" ∨
             pod.status = "Error"
         then .critical else .warning
       resource_type := "pod"
       resource_name := pod.name
       «namespace» := pod.«namespace»
       timestamp := now }]
  else []) ++
  (if pod.restarts > 5 then
    [{ id := generate_issue_id pod.name "restarts" now
       title := "High restart count for " ++ pod.name
       description := "Pod has restarted " ++ natStr pod.restarts ++
         " times. Check crash logs: kubectl logs " ++ pod.name ++ " -n " ++
         pod.«namespace» ++
         " --previous. Review events: kubectl get events -n " ++
         pod.«namespace» ++ " --field-selector involvedObject.name=" ++
         pod.name
       priority := .warning
       resource_type := "pod"
       resource_name := pod.name
       «namespace» := pod.«namespace»
       timestamp := now }]
  else []) ++
  (if ¬ pod.ready ∧ pod.status = "Running" then
    [{ id := generate_issue_id pod.name "readiness" now
       title := "Pod " ++ pod.name ++ " not ready"
       description :=
         "Pod is running but readiness probe is failing. Check logs and probe configuration. Run: kubectl describe pod " ++
         pod.name ++ " -n " ++ pod.«namespace» ++ " to see probe details."
       priority := .warning
       resource_type := "pod"
       resource_name := pod.name
       «namespace» := pod.«namespace»
       timestamp := now }]
  else [])

/-- `Discovery._scan_pods`. -/
def Discovery.scan_pods (d : Discovery) («namespace» : Option String)
    (now : Nat) (cluster : Cluster) : List (Issue Nat) × K8sClient :=
  let ns := d.ruleNs «namespace»
  let (pods, c, _) := d.k8s_client.get_pods ns now cluster
  (pods.flatMap (podIssues now), c)

/-- The body of the per-deployment loop of
`Discovery._scan_deployments`: the replica-mismatch check and the
availability check, in order. -/
def deploymentIssues (now : Nat) (deployment : DeploymentDict) :
    List (Issue Nat) :=
  (if deployment.replicas ≠ deployment.ready then
    [{ id := generate_issue_id deployment.name "replicas" now
       title := "Replica mismatch in " ++ deployment.name
       description := "Expected " ++ intStr deployment.replicas ++
         " replicas, " ++ intStr deployment.ready ++ " ready"
       priority := .warning
       resource_type := "deployment"
       resource_name := deployment.name
       «namespace» := deployment.«namespace»
       timestamp := now }]
  else []) ++
  (if deployment.available < deployment.replicas then
    [{ id := generate_issue_id deployment.name "availability" now
       title := "Deployment " ++ deployment.name ++ " unavailable"
       description := "Only " ++ intStr deployment.available ++ " of " ++
         intStr deployment.replicas ++ " replicas available"
       priority := .critical
       resource_type := "deployment"
       resource_name := deployment.name
       «namespace» := deployment.«namespace»
       timestamp := now }]
  else [])

/-- `Discovery._scan_deployments`. -/
def Discovery.scan_deployments (d : Discovery) («namespace» : Option String)
    (now : Nat) (cluster : Cluster) : List (Issue Nat) × K8sClient :=
  let ns := d.ruleNs «namespace»
  let (deployments, c, _) := d.k8s_client.get_deployments ns now cluster
  (deployments.flatMap (deploymentIssues now), c)

/-- `Discovery._is_recent`: a non-null timestamp younger than one hour.
(A future timestamp gives a negative `timedelta` in Python and `0` with
`Nat` subtraction: both count as recent.) -/
def Discovery.is_recent (timestamp : Option Nat) (now : Nat) : Bool :=
  match timestamp with
  | none => false
  | some t => now - t < 3600

/-- The grouping key of `Discovery._scan_events`:
`f"{object_kind}-{object_name}-{reason}"`. -/
def eventKey (e : EventDict) : String :=
  e.object_kind ++ "-" ++ e.object_name ++ "-" ++ e.reason

/-- One step of building the `event_groups` dict: append `e` under
`key`, creating the key at the end (Python dicts preserve insertion
order). -/
def addToGroups (gs : List (String × List EventDict)) (key : String)
    (e : EventDict) : List (String × List EventDict) :=
  match gs with
  | [] => [(key, [e])]
  | (k, l) :: rest =>
    if k = key then (k, l ++ [e]) :: rest
    else (k, l) :: addToGroups rest key e

/-- The issue built from the chosen event of a group in
`Discovery._scan_events`. -/
def eventIssue (now : Nat) (latest_event : EventDict) : Issue Nat :=
  { id := generate_issue_id latest_event.object_name "event" now
    title := latest_event.reason ++ " on " ++ latest_event.object_kind ++
      "/" ++ latest_event.object_name
    description :=
      if strLen latest_event.message > 200 then
        strTake latest_event.message 197 ++ "..."
      else latest_event.message
    priority :=
      if strContains latest_event.reason "Error" ∨
          strContains latest_event.reason "Failed"
      then .critical
      else if latest_event.type = "Warning" then .warning
      else .info
    resource_type := strLower latest_event.object_kind
    resource_name := latest_event.object_name
    «namespace» := latest_event.«namespace»
    timestamp := now }

/-- `Discovery._scan_events`: group by `eventKey` (a Python dict in
insertion order), keep the recent events of each group, and emit one
issue per group with recent events, built from the FIRST recent event
in input order (`recent_events[0]`). -/
def Discovery.scan_events (d : Discovery) («namespace» : Option String)
    (now : Nat) (cluster : Cluster) : List (Issue Nat) × K8sClient :=
  let ns := d.ruleNs «namespace»
  let (events, c, _) := d.k8s_client.get_events ns now cluster
  let event_groups := events.foldl (fun gs e => addToGroups gs (eventKey e) e) []
  let issues := event_groups.filterMap (fun kg =>
    match (kg.2.filter (fun e => Discovery.is_recent e.timestamp now)) with
    | [] => none
    | latest_event :: _ => some (eventIssue now latest_event))
  (issues, c)

/-- `Discovery._scan_service_mesh_issues`: pods whose labels mention
Istio and that are `Running` but not ready. -/
def Discovery.scan_service_mesh_issues (d : Discovery)
    («namespace» : Option String) (now : Nat) (cluster : Cluster) :
    List (Issue Nat) × K8sClient :=
  let ns := d.ruleNs «namespace»
  let (pods, c, _) := d.k8s_client.get_pods ns now cluster
  let issues := pods.flatMap (fun pod =>
    if (strContains (dictRepr pod.labels) "istio-injection" ∨
        pod.labels.any (fun kv => strContains (strLower kv.1) "istio")) ∧
        pod.status = "Running" ∧ ¬ pod.ready then
      [{ id := generate_issue_id pod.name "istio-sidecar" now
         title := "Istio sidecar issue in " ++ pod.name
         description :=
           "Pod appears to have Istio injection but may have sidecar issues. Check: kubectl logs " ++
           pod.name ++ " -n " ++ pod.«namespace» ++
           " -c istio-proxy. Verify sidecar: kubectl get pod " ++ pod.name ++
           " -n " ++ pod.«namespace» ++
           " -o jsonpath=\x27\x7b.spec.containers[*].name\x7d\x27"
         priority := .warning
         resource_type := "pod"
         resource_name := pod.name
         «namespace» := pod.«namespace»
         timestamp := now }]
    else [])
  (issues, c)

/-- `Discovery._scan_network_policies`: the last five events whose
message mentions a network keyword, re-filtered on
`network`/`policy`. -/
def Discovery.scan_network_policies (d : Discovery)
    («namespace» : Option String) (now : Nat) (cluster : Cluster) :
    List (Issue Nat) × K8sClient :=
  let ns := d.ruleNs «namespace»
  let (_, c₁, _) := d.k8s_client.get_pods ns now cluster
  let (events, c₂, _) := c₁.get_events ns now cluster
  let network_errors := events.filter (fun e =>
    ["network", "policy", "forbidden", "denied", "cilium"].any
      (fun keyword => strContains (strLower e.message) keyword))
  let issues := (lastN network_errors 5).flatMap (fun event =>
    if strContains (strLower event.message) "network" ∨
        strContains (strLower event.message) "policy" then
      [{ id := generate_issue_id event.object_name "network-policy" now
         title := "Network policy issue: " ++ event.reason
         description := event.message ++
           ". Check network policies: kubectl get networkpolicies -n " ++
           event.«namespace» ++
           ". For Cilium: kubectl get cnp,ccnp -A. Debug: kubectl exec -n " ++
           event.«namespace» ++ " <pod> -- curl <target>"
         priority := .warning
         resource_type := strLower event.object_kind
         resource_name := event.object_name
         «namespace» := event.«namespace»
         timestamp := now }]
    else [])
  (issues, c₂)

/-- `Discovery._scan_policy_violations`: the last five Kyverno-looking
events (`"kyverno" in message or ("policy" in reason and "violation" in
message)`, with Python's `and`-over-`or` precedence). -/
def Discovery.scan_policy_violations (d : Discovery)
    («namespace» : Option String) (now : Nat) (cluster : Cluster) :
    List (Issue Nat) × K8sClient :=
  let ns := d.ruleNs «namespace»
  let (events, c, _) := d.k8s_client.get_events ns now cluster
  let kyverno_events := events.filter (fun e =>
    strContains (strLower e.message) "kyverno" ∨
      (strContains (strLower e.reason) "policy" ∧
        strContains (strLower e.message) "violation"))
  let issues := (lastN kyverno_events 5).map (fun event =>
    { id := generate_issue_id event.object_name "policy-violation" now
      title := "Policy violation: " ++ event.reason
      description := event.message ++
        ". Check Kyverno policies: kubectl get policyreport -n " ++
        event.«namespace» ++
        ". View violations: kubectl get policyreport -n " ++
        event.«namespace» ++ " -o yaml"
      priority := .warning
      resource_type := strLower event.object_kind
      resource_name := event.object_name
      «namespace» := event.«namespace»
      timestamp := now })
  (issues, c)

/-- The fan-in loop of `Discovery.scan_all` over the results of
`asyncio.gather(*tasks, return_exceptions=True)`: a result that is a
list is appended, an exception value contributes nothing (it is only
logged).  The whole loop is total: the aggregate call cannot throw. -/
def scan_all_gather (results : List (Except String (List (Issue Nat)))) :
    List (Issue Nat) :=
  results.foldl
    (fun issues result =>
      match result with
      | .ok l => issues ++ l
      | .error _ => issues)
    []

/-- `Discovery.scan_all`: normalize the namespace, run the six scan
rules against the shared client (the rule coroutines contain no true
suspension points, so the gather runs them to completion in task
order), and fan in the results. -/
def Discovery.scan_all (d : Discovery) («namespace» : Option String)
    (now : Nat) (cluster : Cluster) : List (Issue Nat) × K8sClient :=
  let ns := Discovery.scanAllNs «namespace»
  let (r₁, c₁) := d.scan_pods ns now cluster
  let d₁ : Discovery := { d with k8s_client := c₁ }
  let (r₂, c₂) := d₁.scan_deployments ns now cluster
  let d₂ : Discovery := { d with k8s_client := c₂ }
  let (r₃, c₃) := d₂.scan_events ns now cluster
  let d₃ : Discovery := { d with k8s_client := c₃ }
  let (r₄, c₄) := d₃.scan_service_mesh_issues ns now cluster
  let d₄ : Discovery := { d with k8s_client := c₄ }
  let (r₅, c₅) := d₄.scan_network_policies ns now cluster
  let d₅ : Discovery := { d with k8s_client := c₅ }
  let (r₆, c₆) := d₅.scan_policy_violations ns now cluster
  (scan_all_gather [.ok r₁, .ok r₂, .ok r₃, .ok r₄, .ok r₅, .ok r₆], c₆)

/-! ### `src/command_validator.py` -/

/-- `ALLOWED_COMMANDS` of `src/command_validator.py`. -/
def ALLOWED_COMMANDS : List String := ["get", "describe", "logs", "top"]

/-- `FORBIDDEN_FLAGS` of `src/command_validator.py`. -/
def FORBIDDEN_FLAGS : List String :=
  ["-o jsonpath", "-o=jsonpath", "--dry-run", "--overrides"]

/-- `validate_kubectl_command` of `src/command_validator.py`:
whitespace-tokenize, require an allow-listed verb, reject a token that
equals a forbidden flag, reject shell metacharacters anywhere in the
raw string. -/
def validate_kubectl_command (command : String) : Bool × String :=
  let parts := (splitWs command.data).map String.mk
  match parts with
  | [] => (false, "Empty command")
  | cmd_verb :: _ =>
    if ¬ cmd_verb ∈ ALLOWED_COMMANDS then
      (false, "Command \x27" ++ cmd_verb ++
        "\x27 is not allowed. Only read-only commands are permitted.")
    else
      match parts.find? (fun part => part ∈ FORBIDDEN_FLAGS) with
      | some part => (false, "Flag \x27" ++ part ++ "\x27 is not allowed.")
      | none =>
        if command.data.any (fun ch => ch = ';' ∨ ch = '|' ∨ ch = '>' ∨ ch = '&')
        then (false, "Shell operators are not allowed.")
        else (true, "Command is valid")

/-! ### Spec-side definitions

`scanEventsSpec` is written from the specification's words for the
event-correlation rule (amended on the two points the code forces:
grouping is by the concatenated string key, and the issue is built from
the first recent event in input order rather than the most recent), to
be compared with `Discovery.scan_events`.  The issue constructor
`eventIssue` is shared: its classification and truncation are exactly
the spec's classification and truncation. -/

/-- The group keys of an event list, in first-occurrence order. -/
def dedupKeysSpec (events : List EventDict) : List String :=
  events.foldl
    (fun ks e => if eventKey e ∈ ks then ks else ks ++ [eventKey e]) []

/-- Declarative event correlation: one issue per group key whose group
(all events with that key, in input order) contains a recent event,
built from the first recent event of the group. -/
def scanEventsSpec (now : Nat) (events : List EventDict) : List (Issue Nat) :=
  (dedupKeysSpec events).filterMap (fun k =>
    match (events.filter (fun e => eventKey e == k)).filter
        (fun e => Discovery.is_recent e.timestamp now) with
    | [] => none
    | first :: _ => some (eventIssue now first))

/-- The declarative form of the `event_groups` dict: every group key in
first-occurrence order, paired with all events carrying that key in
input order. -/
def specGroups (events : List EventDict) :
    List (String × List EventDict) :=
  (dedupKeysSpec events).map
    (fun k => (k, events.filter (fun e => eventKey e == k)))

/-! ### Concrete fixtures for counterexamples and witnesses -/

/-- A crash-looping pod living in namespace `prod`. -/
def crashRawPod : RawPod :=
  { name := "payments-api"
    «namespace» := "prod"
    phase := "CrashLoopBackOff"
    node_name := some "node-1"
    container_statuses := some [⟨false, 2⟩]
    creation_timestamp := some 0
    labels := some [] }

/-- A cluster whose only pod lives in namespace `prod`; every other
namespace is empty, and there are no events or deployments. -/
def clusterProdOnly : Cluster :=
  { pods := fun ns => if ns = "prod" then some [crashRawPod] else some []
    events := fun _ => some []
    deployments := fun _ => some [] }

/-- A `Discovery` over a freshly initialized client whose configured
namespace is `default`. -/
def discoveryDefault : Discovery :=
  { k8s_client := { «namespace» := "default", cache := [] }
    «namespace» := "default" }

/-- A client holding a fresh (`fetched_at = 5`) but empty cached pod
list for its own namespace. -/
def clientFreshEmptyCache : K8sClient :=
  { «namespace» := "default"
    cache := [("pods-default", ⟨.pods [], 5⟩)] }

/-- A healthy raw pod in namespace `default`. -/
def healthyRawPod : RawPod :=
  { name := "web-1"
    «namespace» := "default"
    phase := "Running"
    node_name := some "node-1"
    container_statuses := some [⟨true, 0⟩]
    creation_timestamp := some 10
    labels := some [] }

/-- A cluster that always returns the one healthy pod. -/
def clusterOnePod : Cluster :=
  { pods := fun _ => some [healthyRawPod]
    events := fun _ => some []
    deployments := fun _ => some [] }

/-- An older warning event (`last_timestamp = 0`). -/
def rawEventOld : RawEvent :=
  { name := "e1", «namespace» := "default", type := "Warning"
    reason := "BackOff", message := "msg-old", object_kind := "Pod"
    object_name := "web", last_timestamp := some 0, first_timestamp := some 0 }

/-- A more recent warning event with the same
(kind, name, reason) triple (`last_timestamp = 1000`). -/
def rawEventNew : RawEvent :=
  { name := "e2", «namespace» := "default", type := "Warning"
    reason := "BackOff", message := "msg-new", object_kind := "Pod"
    object_name := "web", last_timestamp := some 1000
    first_timestamp := some 1000 }

/-- A cluster returning the two events above, oldest first. -/
def clusterTwoEvents : Cluster :=
  { pods := fun _ => some []
    events := fun _ => some [rawEventOld, rawEventNew]
    deployments := fun _ => some [] }

/-- A crash-looping pod dict (C5 witness). -/
def crashPodDict : PodDict :=
  { name := "web-42", «namespace» := "default", status := "CrashLoopBackOff"
    node := none, ready := false, restarts := 0, age := "1m", labels := []
    events := [] }

/-- A pending pod dict (C5 witness). -/
def pendingPodDict : PodDict :=
  { name := "web-43", «namespace» := "default", status := "Pending"
    node := none, ready := false, restarts := 0, age := "1m", labels := []
    events := [] }

/-- A deployment with `available (1) < replicas (3)` (C5 witness). -/
def unavailableDeployment : DeploymentDict :=
  { name := "api", «namespace» := "default", replicas := 3, ready := 3
    up_to_date := 3, available := 1, age := "1d", labels := [] }

/-- A deployment with `replicas (3) ≠ ready (2)` but
`available == replicas` (C5 witness). -/
def mismatchDeployment : DeploymentDict :=
  { name := "api2", «namespace» := "default", replicas := 3, ready := 2
    up_to_date := 3, available := 3, age := "1d", labels := [] }

/-- A placeholder issue (C6 witness). -/
def sampleIssue : Issue Nat :=
  { id := "i1", title := "t", description := "d", priority := .info
    resource_type := "pod", resource_name := "p", «namespace» := "default"
    timestamp := 0 }

/-- A second placeholder issue (C6 witness). -/
def sampleIssue₂ : Issue Nat :=
  { id := "i2", title := "t2", description := "d2", priority := .critical
    resource_type := "deployment", resource_name := "q"
    «namespace» := "default", timestamp := 0 }

/-- A sample issue with a calendar timestamp (C7 witness). -/
def sampleIssuePy : Issue PyDatetime :=
  { id := "web-status-5", title := "Pod web in Pending state"
    description := "Pod is in Pending state instead of Running."
    priority := .warning, resource_type := "pod", resource_name := "web"
    «namespace» := "default"
    timestamp := ⟨2024, 3, 5, 12, 0, 1, 123, by norm_num⟩ }

/-- A log read that succeeds (C8 witness). -/
def readLogOk : String → String → Nat → Except String String :=
  fun _ _ _ => .ok "line1"

/-- A log read that raises `ApiException` (C8 witness). -/
def readLogErr : String → String → Nat → Except String String :=
  fun _ _ _ => .error "(403) Forbidden"

/-- A client holding a fresh, non-empty cached event list for its own
namespace (C3 witness). -/
def clientFreshEventsCache : K8sClient :=
  { «namespace» := "default"
    cache := [("events-default", ⟨.events [eventEntry 0 rawEventOld], 5⟩)] }

/-- A cluster whose control plane fails every read with `ApiException`
(C3 witness). -/
def clusterDown : Cluster :=
  { pods := fun _ => none
    events := fun _ => none
    deployments := fun _ => none }

/-- A raw pod whose control-plane record carries no container statuses
(C10 witness). -/
def statuslessRawPod : RawPod :=
  { name := "p", «namespace» := "default", phase := "Running"
    node_name := none, container_statuses := none
    creation_timestamp := none, labels := none }

/-! ### Shared lemmas -/

/-- Two issue ids generated at the same clock second from the same
resource but different issue types differ. -/
theorem generate_issue_id_ne (resource_name : String) {t₁ t₂ : String}
    (h : t₁ ≠ t₂) (now : Nat) :
    generate_issue_id resource_name t₁ now ≠
      generate_issue_id resource_name t₂ now := by
  intro heq
  apply h
  have hd := congrArg String.data heq
  simp only [generate_issue_id, String.data_append] at hd
  have h₁ := List.append_cancel_right hd
  have h₂ := List.append_cancel_right h₁
  have h₃ := List.append_cancel_left h₂
  exact congrArg String.mk h₃

/-! ### Claim theorems -/

/-- C1, counterexample: `generate_issue_id` is not a pure function of
`(resource_name, issue_type)` — the id embeds the clock second of the
call, so two calls with identical inputs one second apart produce
different ids. -/
theorem c1_counterexample_time_dependent_id :
    generate_issue_id "web" "status" 0 ≠ generate_issue_id "web" "status" 1 := by
  decide

/-- C1, amended: at any fixed clock second, `generate_issue_id` is
deterministic (identical inputs give identical ids) and injective in
the issue type (different `issue_type` values for the same
`resource_name` give different ids); across different clock seconds the
id changes even for identical inputs. -/
theorem c1_issue_id_deterministic_at_fixed_clock :
    ∀ (resource_name issue_type₁ issue_type₂ : String) (now : Nat),
      generate_issue_id resource_name issue_type₁ now =
        generate_issue_id resource_name issue_type₁ now ∧
      (issue_type₁ ≠ issue_type₂ →
        generate_issue_id resource_name issue_type₁ now ≠
          generate_issue_id resource_name issue_type₂ now) :=
  fun resource_name _ _ now =>
    ⟨rfl, fun h => generate_issue_id_ne resource_name h now⟩

/-- Witness for C1 at `("web", "status")` vs `("web", "restarts")`,
clock second 5. -/
theorem c1_issue_id_deterministic_at_fixed_clock_witness :
    generate_issue_id "web" "status" 5 ≠ generate_issue_id "web" "restarts" 5 :=
  (c1_issue_id_deterministic_at_fixed_clock "web" "status" "restarts" 5).2
    (by decide)

/-- C7: `Issue.from_dict ∘ Issue.to_dict` is the identity (every field
reconstructed), the priority serializes to its lowercase tag, and the
timestamp serializes to (and round-trips through) its ISO-8601 text. -/
theorem c7_issue_serialization_round_trip :
    ∀ (issue : Issue PyDatetime),
      Issue.from_dict (Issue.to_dict issue) = some issue ∧
      (Issue.to_dict issue).priority = issue.priority.value ∧
      (Issue.to_dict issue).timestamp = isoformat issue.timestamp := by
  intro issue
  refine ⟨?_, rfl, rfl⟩
  simp only [Issue.to_dict, Issue.from_dict, Priority.ofValue_value,
    fromisoformat_isoformat]

/-- C8: `get_pod_logs` leaves the client state (hence the cache)
untouched, its result does not depend on the cache contents, and it
never raises: the raw log text on a successful read, the textual
`"Error getting logs: …"` message on a failed one. -/
theorem c8_get_pod_logs_contract :
    ∀ (c : K8sClient) (pod_name : String) («namespace» : Option String)
      (lines : Nat)
      (read_log : String → String → Nat → Except String String),
      (c.get_pod_logs pod_name «namespace» lines read_log).2 = c ∧
      (∀ cache₂,
        ((K8sClient.mk c.«namespace» cache₂ c.cache_ttl).get_pod_logs
            pod_name «namespace» lines read_log).1 =
          (c.get_pod_logs pod_name «namespace» lines read_log).1) ∧
      (∀ logs,
        read_log pod_name (pyOrStr «namespace» c.«namespace») lines = .ok logs →
        (c.get_pod_logs pod_name «namespace» lines read_log).1 = logs) ∧
      (∀ e,
        read_log pod_name (pyOrStr «namespace» c.«namespace») lines = .error e →
        (c.get_pod_logs pod_name «namespace» lines read_log).1 =
          "Error getting logs: " ++ e) := by
  intro c pod_name ns lines read_log
  cases hr : read_log pod_name (pyOrStr ns c.«namespace») lines with
  | ok logs =>
    refine ⟨?_, ?_, ?_, ?_⟩ <;>
      simp [K8sClient.get_pod_logs, hr]
  | error e =>
    refine ⟨?_, ?_, ?_, ?_⟩ <;>
      simp [K8sClient.get_pod_logs, hr]

/-- Witness for C8: a successful and a failing read on a concrete
client. -/
theorem c8_get_pod_logs_contract_witness :
    (K8sClient.get_pod_logs { «namespace» := "default", cache := [] }
        "web" none 50 readLogOk).1 = "line1" ∧
    (K8sClient.get_pod_logs { «namespace» := "default", cache := [] }
        "web" none 50 readLogErr).1 =
      "Error getting logs: (403) Forbidden" :=
  ⟨(c8_get_pod_logs_contract { «namespace» := "default", cache := [] }
      "web" none 50 readLogOk).2.2.1 "line1" rfl,
   (c8_get_pod_logs_contract { «namespace» := "default", cache := [] }
      "web" none 50 readLogErr).2.2.2 "(403) Forbidden" rfl⟩

/-- C9: the code evaluated at the failing input.  The space-containing
entry `"-o jsonpath"` of `FORBIDDEN_FLAGS` is compared against
whitespace-split tokens, so a command that plainly contains the flag
`-o jsonpath` is allowed. -/
theorem c9_jsonpath_flag_not_denied :
    validate_kubectl_command "get pods -o jsonpath=\x7b.items\x7d" =
      (true, "Command is valid") ∧
    strContains "get pods -o jsonpath=\x7b.items\x7d" "-o jsonpath" = true ∧
    "-o jsonpath" ∈ FORBIDDEN_FLAGS := by
  decide

/-- C10: a pod whose record carries no container statuses (absent or
empty list) derives `ready = false` — the readiness AND is not
vacuously true — and `restart_count = 0`. -/
theorem c10_no_container_statuses :
    ∀ (now : Nat) (pod : RawPod),
      pod.container_statuses = none ∨ pod.container_statuses = some [] →
      (podEntry now pod).ready = false ∧ (podEntry now pod).restarts = 0 := by
  rintro now pod (h | h) <;>
    simp [podEntry, K8sClient.is_pod_ready, h]

/-- Witness for C10 at a concrete statusless pod. -/
theorem c10_no_container_statuses_witness :
    (podEntry 0 statuslessRawPod).ready = false ∧
    (podEntry 0 statuslessRawPod).restarts = 0 :=
  c10_no_container_statuses 0 statuslessRawPod (Or.inl rfl)

/-- One scan-rule list result is appended by the fan-in, an exception
result is skipped, starting from any accumulator. -/
theorem scan_all_gather_acc
    (results : List (Except String (List (Issue Nat)))) :
    ∀ acc : List (Issue Nat),
      results.foldl
        (fun issues result =>
          match result with
          | .ok l => issues ++ l
          | .error _ => issues) acc =
        acc ++ scan_all_gather results := by
  induction results with
  | nil => intro acc; simp [scan_all_gather]
  | cons r rest ih =>
    intro acc
    cases r with
    | ok l =>
      simp only [scan_all_gather, List.foldl_cons, List.nil_append]
      rw [ih (acc ++ l), ih l, List.append_assoc]
    | error e =>
      simp only [scan_all_gather, List.foldl_cons, List.nil_append]
      exact ih acc

/-- Every issue of a successful rule result is in the fan-in output. -/
theorem mem_scan_all_gather
    (results : List (Except String (List (Issue Nat))))
    (l : List (Issue Nat)) (hl : Except.ok l ∈ results)
    (i : Issue Nat) (hi : i ∈ l) : i ∈ scan_all_gather results := by
  induction results with
  | nil => simp at hl
  | cons r rest ih =>
    rcases List.mem_cons.mp hl with h | h
    · subst h
      simp only [scan_all_gather, List.foldl_cons, List.nil_append]
      rw [scan_all_gather_acc rest l]
      exact List.mem_append_left _ hi
    · cases r with
      | ok l' =>
        simp only [scan_all_gather, List.foldl_cons, List.nil_append]
        rw [scan_all_gather_acc rest l']
        exact List.mem_append_right _ (ih h)
      | error e =>
        simpa [scan_all_gather] using ih h

/-- C6: the `scan_all` fan-in over gathered rule results is total, a
rule that raised contributes zero issues wherever it sits in the task
list, and every issue of every successful rule is present in the
aggregate. -/
theorem c6_scan_rule_fault_isolation :
    ∀ (pre post : List (Except String (List (Issue Nat)))) (e : String),
      scan_all_gather (pre ++ .error e :: post) =
        scan_all_gather pre ++ scan_all_gather post ∧
      (∀ l, Except.ok l ∈ pre ++ .error e :: post →
        ∀ i ∈ l, i ∈ scan_all_gather (pre ++ .error e :: post)) := by
  intro pre post e
  constructor
  · rw [scan_all_gather, List.foldl_append, scan_all_gather_acc pre [],
      List.nil_append, List.foldl_cons]
    exact scan_all_gather_acc post _
  · intro l hl i hi
    exact mem_scan_all_gather _ l hl i hi

/-- Witness for C6: a failing middle rule between two succeeding
rules. -/
theorem c6_scan_rule_fault_isolation_witness :
    scan_all_gather [.ok [sampleIssue], .error "boom", .ok [sampleIssue₂]] =
      scan_all_gather [.ok [sampleIssue]] ++
        scan_all_gather [.ok [sampleIssue₂]] ∧
    sampleIssue ∈
      scan_all_gather [.ok [sampleIssue], .error "boom", .ok [sampleIssue₂]] :=
  ⟨(c6_scan_rule_fault_isolation [.ok [sampleIssue]] [.ok [sampleIssue₂]]
      "boom").1,
   (c6_scan_rule_fault_isolation [.ok [sampleIssue]] [.ok [sampleIssue₂]]
      "boom").2 [sampleIssue] (by simp) sampleIssue (by simp)⟩

/-- C5: pod and deployment classification.  A `CrashLoopBackOff` pod
yields exactly one pod-status issue and it is CRITICAL; a `Pending` pod
yields exactly one pod-status issue and it is WARNING; a deployment
with `available < replicas` yields exactly one availability issue and
it is CRITICAL; a deployment with `replicas ≠ ready` but
`available = replicas` yields exactly one replica-mismatch issue, it is
WARNING, and no CRITICAL issue is produced for it. -/
theorem c5_pod_and_deployment_classification :
    (∀ (now : Nat) (pod : PodDict), pod.status = "CrashLoopBackOff" →
      ((podIssues now pod).filter
          (fun i => i.id == generate_issue_id pod.name "status" now)).map
          (fun i => i.priority) = [.critical]) ∧
    (∀ (now : Nat) (pod : PodDict), pod.status = "Pending" →
      ((podIssues now pod).filter
          (fun i => i.id == generate_issue_id pod.name "status" now)).map
          (fun i => i.priority) = [.warning]) ∧
    (∀ (now : Nat) (deployment : DeploymentDict),
      deployment.available < deployment.replicas →
      ((deploymentIssues now deployment).filter
          (fun i =>
            i.id == generate_issue_id deployment.name "availability" now)).map
          (fun i => i.priority) = [.critical]) ∧
    (∀ (now : Nat) (deployment : DeploymentDict),
      deployment.replicas ≠ deployment.ready →
      deployment.available = deployment.replicas →
      ((deploymentIssues now deployment).filter
          (fun i =>
            i.id == generate_issue_id deployment.name "replicas" now)).map
          (fun i => i.priority) = [.warning] ∧
      ∀ i ∈ deploymentIssues now deployment, i.priority ≠ .critical) := by
  refine ⟨?_, ?_, ?_, ?_⟩
  · intro now pod h
    have hne₁ :
        (generate_issue_id pod.name "restarts" now ==
          generate_issue_id pod.name "status" now) = false :=
      beq_eq_false_iff_ne.mpr
        (generate_issue_id_ne pod.name (by decide) now)
    by_cases hr : pod.restarts > 5 <;>
      simp [podIssues, h, hr, List.filter_append, hne₁]
  · intro now pod h
    have hne₁ :
        (generate_issue_id pod.name "restarts" now ==
          generate_issue_id pod.name "status" now) = false :=
      beq_eq_false_iff_ne.mpr
        (generate_issue_id_ne pod.name (by decide) now)
    by_cases hr : pod.restarts > 5 <;>
      simp [podIssues, h, hr, List.filter_append, hne₁]
  · intro now deployment h
    have hne₁ :
        (generate_issue_id deployment.name "replicas" now ==
          generate_issue_id deployment.name "availability" now) = false :=
      beq_eq_false_iff_ne.mpr
        (generate_issue_id_ne deployment.name (by decide) now)
    by_cases hm : deployment.replicas = deployment.ready
    · rw [hm] at h
      simp [deploymentIssues, h, hm, List.filter_append, hne₁]
    · simp [deploymentIssues, h, hm, List.filter_append, hne₁]
  · intro now deployment h₁ h₂
    constructor
    · simp [deploymentIssues, h₁, h₂, List.filter_append]
    · intro i hi
      simp [deploymentIssues, h₁, h₂] at hi
      subst hi
      simp

/-- Witness for C5 at concrete pod and deployment records. -/
theorem c5_pod_and_deployment_classification_witness :
    ((podIssues 9 crashPodDict).filter
        (fun i => i.id == generate_issue_id crashPodDict.name "status" 9)).map
        (fun i => i.priority) = [.critical] ∧
    ((podIssues 9 pendingPodDict).filter
        (fun i =>
          i.id == generate_issue_id pendingPodDict.name "status" 9)).map
        (fun i => i.priority) = [.warning] ∧
    ((deploymentIssues 9 unavailableDeployment).filter
        (fun i =>
          i.id ==
            generate_issue_id unavailableDeployment.name "availability" 9)).map
        (fun i => i.priority) = [.critical] ∧
    ((deploymentIssues 9 mismatchDeployment).filter
        (fun i =>
          i.id == generate_issue_id mismatchDeployment.name "replicas" 9)).map
        (fun i => i.priority) = [.warning] ∧
    ∀ i ∈ deploymentIssues 9 mismatchDeployment, i.priority ≠ .critical :=
  ⟨c5_pod_and_deployment_classification.1 9 crashPodDict rfl,
   c5_pod_and_deployment_classification.2.1 9 pendingPodDict rfl,
   c5_pod_and_deployment_classification.2.2.1 9 unavailableDeployment
     (by decide),
   (c5_pod_and_deployment_classification.2.2.2 9 mismatchDeployment
     (by decide) (by decide)).1,
   (c5_pod_and_deployment_classification.2.2.2 9 mismatchDeployment
     (by decide) (by decide)).2⟩

/-- `scan_all` depends on its namespace argument only through the
`scanAllNs` normalization. -/
theorem scan_all_congr (d : Discovery) (now : Nat) (cluster : Cluster)
    (a b : Option String) (h : Discovery.scanAllNs a = Discovery.scanAllNs b) :
    d.scan_all a now cluster = d.scan_all b now cluster := by
  unfold Discovery.scan_all
  rw [h]

/-- C2: namespace-scope resolution of `scan_all`.  `None`, `""` and
`"all"` are mutually equivalent, and an explicit namespace is honored
exactly — but the normalized `None` scope is NOT cluster-wide: every
rule hands `None` to the client, whose `namespace or self.namespace`
fallback resolves it to the client's configured default namespace, and
the client only ever calls the namespaced list API.  Concretely, a
cluster whose only (crash-looping) pod lives in `prod` yields zero
issues under `scan_all(None)` with a `default`-configured client, while
`scan_all("prod")` reports it — contradicting the claim (and the
source's own comments, which say `None`/`""`/`"all"` mean all
namespaces). -/
theorem c2_scan_scope_resolves_to_client_default :
    (∀ (d : Discovery) (now : Nat) (cluster : Cluster),
      d.scan_all none now cluster = d.scan_all (some "") now cluster ∧
      d.scan_all none now cluster = d.scan_all (some "all") now cluster) ∧
    (∀ (d : Discovery) (ns : String), ns ≠ "" → ns ≠ "all" →
      Discovery.scanAllNs (some ns) = some ns ∧
      d.ruleNs (some ns) = some ns ∧
      pyOrStr (some ns) d.k8s_client.«namespace» = ns) ∧
    (∀ (c : K8sClient) (now : Nat) (cluster : Cluster),
      c.get_pods none now cluster =
        c.get_pods (some c.«namespace») now cluster) ∧
    ((discoveryDefault.scan_all none 1000 clusterProdOnly).1 = [] ∧
      (discoveryDefault.scan_all (some "") 1000 clusterProdOnly).1 = [] ∧
      (discoveryDefault.scan_all (some "all") 1000 clusterProdOnly).1 = [] ∧
      ((discoveryDefault.scan_all (some "prod") 1000 clusterProdOnly).1.map
          (fun i => (i.resource_name, i.priority))) =
        [("payments-api", Priority.critical)]) := by
  refine ⟨fun d now cluster =>
    ⟨scan_all_congr d now cluster none (some "") rfl,
     scan_all_congr d now cluster none (some "all") rfl⟩, ?_, ?_, ?_⟩
  · intro d ns h₁ h₂
    refine ⟨?_, ?_, ?_⟩ <;>
      simp [Discovery.scanAllNs, Discovery.ruleNs, pyOrStr, h₁, h₂]
  · intro c now cluster
    have hns : pyOrStr (some c.«namespace») c.«namespace» = c.«namespace» := by
      simp [pyOrStr, ite_self]
    unfold K8sClient.get_pods
    rw [hns]
    rfl
  · refine ⟨?_, ?_, ?_, ?_⟩ <;> decide

/-- Witness for C2 at the explicit namespace `prod`. -/
theorem c2_scan_scope_resolves_to_client_default_witness :
    Discovery.scanAllNs (some "prod") = some "prod" ∧
    discoveryDefault.ruleNs (some "prod") = some "prod" ∧
    pyOrStr (some "prod") discoveryDefault.k8s_client.«namespace» = "prod" :=
  c2_scan_scope_resolves_to_client_default.2.1 discoveryDefault "prod"
    (by decide) (by decide)

/-- Dict assignment followed by lookup of the same key. -/
theorem assocFind_assocSet (cache : List (String × CacheEntry)) (k : String)
    (v : CacheEntry) : assocFind (assocSet cache k v) k = some v := by
  induction cache with
  | nil => simp [assocSet, assocFind]
  | cons p rest ih =>
    obtain ⟨k', v'⟩ := p
    by_cases h : k' = k <;> simp [assocSet, assocFind, h, ih]

/-- `get_pods` on a valid, non-empty cache entry: served from cache,
no live read, state unchanged. -/
theorem get_pods_hit (c : K8sClient) (ns : Option String) (now : Nat)
    (cluster : Cluster) (l : List PodDict) (t : Nat)
    (hfind : assocFind c.cache ("pods-" ++ pyOrStr ns c.«namespace») =
      some ⟨.pods l, t⟩)
    (hvalid : now - t < c.cache_ttl) (hne : l ≠ []) :
    c.get_pods ns now cluster = (l, c, false) := by
  unfold K8sClient.get_pods
  simp [K8sClient.get_from_cache, K8sClient.is_cache_valid, hfind, hvalid, hne]

/-- `get_pods` always reports a live read when the cache misses
(no entry, stale entry, or empty cached list). -/
theorem get_pods_miss_flag (c : K8sClient) (ns : Option String) (now : Nat)
    (cluster : Cluster)
    (h : ∀ l t,
      assocFind c.cache ("pods-" ++ pyOrStr ns c.«namespace») =
        some ⟨.pods l, t⟩ →
      ¬ (now - t < c.cache_ttl ∧ l ≠ [])) :
    (c.get_pods ns now cluster).2.2 = true := by
  unfold K8sClient.get_pods
  rcases hfind : assocFind c.cache ("pods-" ++ pyOrStr ns c.«namespace») with
    _ | ⟨data, t⟩
  · simp only [K8sClient.get_from_cache, K8sClient.is_cache_valid, hfind]
    cases hp : cluster.pods (pyOrStr ns c.«namespace») <;> simp [hp]
  · cases data with
    | pods l =>
      have := h l t hfind
      by_cases hv : now - t < c.cache_ttl
      · have hl : l = [] := by
          by_contra hl
          exact this ⟨hv, hl⟩
        subst hl
        simp only [K8sClient.get_from_cache, K8sClient.is_cache_valid, hfind,
          hv]
        cases hp : cluster.pods (pyOrStr ns c.«namespace») <;> simp [hp]
      · simp only [K8sClient.get_from_cache, K8sClient.is_cache_valid, hfind]
        simp only [hv]
        cases hp : cluster.pods (pyOrStr ns c.«namespace») <;> simp [hp, hv]
    | events l =>
      simp only [K8sClient.get_from_cache, K8sClient.is_cache_valid, hfind]
      by_cases hv : now - t < c.cache_ttl <;>
        cases hp : cluster.pods (pyOrStr ns c.«namespace») <;> simp [hp, hv]
    | deployments l =>
      simp only [K8sClient.get_from_cache, K8sClient.is_cache_valid, hfind]
      by_cases hv : now - t < c.cache_ttl <;>
        cases hp : cluster.pods (pyOrStr ns c.«namespace») <;> simp [hp, hv]

/-- `get_pods` on a cache miss with a succeeding live read: derive,
store, return. -/
theorem get_pods_miss_success (c : K8sClient) (ns : Option String)
    (now : Nat) (cluster : Cluster) (raw : List RawPod)
    (hflag : (c.get_pods ns now cluster).2.2 = true)
    (hp : cluster.pods (pyOrStr ns c.«namespace») = some raw) :
    c.get_pods ns now cluster =
      (raw.map (podEntry now),
       c.set_cache ("pods-" ++ pyOrStr ns c.«namespace»)
         (.pods (raw.map (podEntry now))) now, true) := by
  unfold K8sClient.get_pods at hflag ⊢
  rcases hcc : c.get_from_cache ("pods-" ++ pyOrStr ns c.«namespace») now with
    _ | data
  · simp [hcc, hp]
  · cases data with
    | pods l =>
      by_cases hl : l.isEmpty
      · simp [hcc, hl, hp]
      · simp [hcc, hl, hp] at hflag
    | events l => simp [hcc, hp]
    | deployments l => simp [hcc, hp]

/-- `get_pods` on a cache miss with a failing live read (`ApiException`):
empty result, cache untouched. -/
theorem get_pods_miss_failure (c : K8sClient) (ns : Option String)
    (now : Nat) (cluster : Cluster)
    (hflag : (c.get_pods ns now cluster).2.2 = true)
    (hp : cluster.pods (pyOrStr ns c.«namespace») = none) :
    c.get_pods ns now cluster = ([], c, true) := by
  unfold K8sClient.get_pods at hflag ⊢
  rcases hcc : c.get_from_cache ("pods-" ++ pyOrStr ns c.«namespace») now with
    _ | data
  · simp [hcc, hp]
  · cases data with
    | pods l =>
      by_cases hl : l.isEmpty
      · simp [hcc, hl, hp]
      · simp [hcc, hl, hp] at hflag
    | events l => simp [hcc, hp]
    | deployments l => simp [hcc, hp]

/-- `get_events` on a valid, non-empty cache entry: served from cache,
no live read, state unchanged. -/
theorem get_events_hit (c : K8sClient) (ns : Option String) (now : Nat)
    (cluster : Cluster) (l : List EventDict) (t : Nat)
    (hfind : assocFind c.cache ("events-" ++ pyOrStr ns c.«namespace») =
      some ⟨.events l, t⟩)
    (hvalid : now - t < c.cache_ttl) (hne : l ≠ []) :
    c.get_events ns now cluster = (l, c, false) := by
  unfold K8sClient.get_events
  simp [K8sClient.get_from_cache, K8sClient.is_cache_valid, hfind, hvalid, hne]

/-- `get_events` always reports a live read when the cache misses. -/
theorem get_events_miss_flag (c : K8sClient) (ns : Option String) (now : Nat)
    (cluster : Cluster)
    (h : ∀ l t,
      assocFind c.cache ("events-" ++ pyOrStr ns c.«namespace») =
        some ⟨.events l, t⟩ →
      ¬ (now - t < c.cache_ttl ∧ l ≠ [])) :
    (c.get_events ns now cluster).2.2 = true := by
  unfold K8sClient.get_events
  rcases hfind : assocFind c.cache ("events-" ++ pyOrStr ns c.«namespace») with
    _ | ⟨data, t⟩
  · simp only [K8sClient.get_from_cache, K8sClient.is_cache_valid, hfind]
    cases hp : cluster.events (pyOrStr ns c.«namespace») <;> simp [hp]
  · cases data with
    | events l =>
      have := h l t hfind
      by_cases hv : now - t < c.cache_ttl
      · have hl : l = [] := by
          by_contra hl
          exact this ⟨hv, hl⟩
        subst hl
        simp only [K8sClient.get_from_cache, K8sClient.is_cache_valid, hfind,
          hv]
        cases hp : cluster.events (pyOrStr ns c.«namespace») <;> simp [hp]
      · simp only [K8sClient.get_from_cache, K8sClient.is_cache_valid, hfind]
        simp only [hv]
        cases hp : cluster.events (pyOrStr ns c.«namespace») <;> simp [hp, hv]
    | pods l =>
      simp only [K8sClient.get_from_cache, K8sClient.is_cache_valid, hfind]
      by_cases hv : now - t < c.cache_ttl <;>
        cases hp : cluster.events (pyOrStr ns c.«namespace») <;> simp [hp, hv]
    | deployments l =>
      simp only [K8sClient.get_from_cache, K8sClient.is_cache_valid, hfind]
      by_cases hv : now - t < c.cache_ttl <;>
        cases hp : cluster.events (pyOrStr ns c.«namespace») <;> simp [hp, hv]

/-- `get_events` on a cache miss with a succeeding live read: derive,
store, return. -/
theorem get_events_miss_success (c : K8sClient) (ns : Option String)
    (now : Nat) (cluster : Cluster) (raw : List RawEvent)
    (hflag : (c.get_events ns now cluster).2.2 = true)
    (hp : cluster.events (pyOrStr ns c.«namespace») = some raw) :
    c.get_events ns now cluster =
      (raw.map (eventEntry now),
       c.set_cache ("events-" ++ pyOrStr ns c.«namespace»)
         (.events (raw.map (eventEntry now))) now, true) := by
  unfold K8sClient.get_events at hflag ⊢
  rcases hcc : c.get_from_cache ("events-" ++ pyOrStr ns c.«namespace») now with
    _ | data
  · simp [hcc, hp]
  · cases data with
    | events l =>
      by_cases hl : l.isEmpty
      · simp [hcc, hl, hp]
      · simp [hcc, hl, hp] at hflag
    | pods l => simp [hcc, hp]
    | deployments l => simp [hcc, hp]

/-- `get_events` on a cache miss with a failing live read
(`ApiException`): empty result, cache untouched. -/
theorem get_events_miss_failure (c : K8sClient) (ns : Option String)
    (now : Nat) (cluster : Cluster)
    (hflag : (c.get_events ns now cluster).2.2 = true)
    (hp : cluster.events (pyOrStr ns c.«namespace») = none) :
    c.get_events ns now cluster = ([], c, true) := by
  unfold K8sClient.get_events at hflag ⊢
  rcases hcc : c.get_from_cache ("events-" ++ pyOrStr ns c.«namespace») now with
    _ | data
  · simp [hcc, hp]
  · cases data with
    | events l =>
      by_cases hl : l.isEmpty
      · simp [hcc, hl, hp]
      · simp [hcc, hl, hp] at hflag
    | pods l => simp [hcc, hp]
    | deployments l => simp [hcc, hp]

/-- `get_deployments` on a valid, non-empty cache entry: served from
cache, no live read, state unchanged. -/
theorem get_deployments_hit (c : K8sClient) (ns : Option String) (now : Nat)
    (cluster : Cluster) (l : List DeploymentDict) (t : Nat)
    (hfind : assocFind c.cache ("deployments-" ++ pyOrStr ns c.«namespace») =
      some ⟨.deployments l, t⟩)
    (hvalid : now - t < c.cache_ttl) (hne : l ≠ []) :
    c.get_deployments ns now cluster = (l, c, false) := by
  unfold K8sClient.get_deployments
  simp [K8sClient.get_from_cache, K8sClient.is_cache_valid, hfind, hvalid, hne]

/-- `get_deployments` always reports a live read when the cache
misses. -/
theorem get_deployments_miss_flag (c : K8sClient) (ns : Option String)
    (now : Nat) (cluster : Cluster)
    (h : ∀ l t,
      assocFind c.cache ("deployments-" ++ pyOrStr ns c.«namespace») =
        some ⟨.deployments l, t⟩ →
      ¬ (now - t < c.cache_ttl ∧ l ≠ [])) :
    (c.get_deployments ns now cluster).2.2 = true := by
  unfold K8sClient.get_deployments
  rcases hfind :
    assocFind c.cache ("deployments-" ++ pyOrStr ns c.«namespace») with
    _ | ⟨data, t⟩
  · simp only [K8sClient.get_from_cache, K8sClient.is_cache_valid, hfind]
    cases hp : cluster.deployments (pyOrStr ns c.«namespace») <;> simp [hp]
  · cases data with
    | deployments l =>
      have := h l t hfind
      by_cases hv : now - t < c.cache_ttl
      · have hl : l = [] := by
          by_contra hl
          exact this ⟨hv, hl⟩
        subst hl
        simp only [K8sClient.get_from_cache, K8sClient.is_cache_valid, hfind,
          hv]
        cases hp : cluster.deployments (pyOrStr ns c.«namespace») <;> simp [hp]
      · simp only [K8sClient.get_from_cache, K8sClient.is_cache_valid, hfind]
        simp only [hv]
        cases hp : cluster.deployments (pyOrStr ns c.«namespace») <;>
          simp [hp, hv]
    | pods l =>
      simp only [K8sClient.get_from_cache, K8sClient.is_cache_valid, hfind]
      by_cases hv : now - t < c.cache_ttl <;>
        cases hp : cluster.deployments (pyOrStr ns c.«namespace») <;>
          simp [hp, hv]
    | events l =>
      simp only [K8sClient.get_from_cache, K8sClient.is_cache_valid, hfind]
      by_cases hv : now - t < c.cache_ttl <;>
        cases hp : cluster.deployments (pyOrStr ns c.«namespace») <;>
          simp [hp, hv]

/-- `get_deployments` on a cache miss with a succeeding live read:
derive, store, return. -/
theorem get_deployments_miss_success (c : K8sClient) (ns : Option String)
    (now : Nat) (cluster : Cluster) (raw : List RawDeployment)
    (hflag : (c.get_deployments ns now cluster).2.2 = true)
    (hp : cluster.deployments (pyOrStr ns c.«namespace») = some raw) :
    c.get_deployments ns now cluster =
      (raw.map (deploymentEntry now),
       c.set_cache ("deployments-" ++ pyOrStr ns c.«namespace»)
         (.deployments (raw.map (deploymentEntry now))) now, true) := by
  unfold K8sClient.get_deployments at hflag ⊢
  rcases hcc :
    c.get_from_cache ("deployments-" ++ pyOrStr ns c.«namespace») now with
    _ | data
  · simp [hcc, hp]
  · cases data with
    | deployments l =>
      by_cases hl : l.isEmpty
      · simp [hcc, hl, hp]
      · simp [hcc, hl, hp] at hflag
    | pods l => simp [hcc, hp]
    | events l => simp [hcc, hp]

/-- `get_deployments` on a cache miss with a failing live read
(`ApiException`): empty result, cache untouched. -/
theorem get_deployments_miss_failure (c : K8sClient) (ns : Option String)
    (now : Nat) (cluster : Cluster)
    (hflag : (c.get_deployments ns now cluster).2.2 = true)
    (hp : cluster.deployments (pyOrStr ns c.«namespace») = none) :
    c.get_deployments ns now cluster = ([], c, true) := by
  unfold K8sClient.get_deployments at hflag ⊢
  rcases hcc :
    c.get_from_cache ("deployments-" ++ pyOrStr ns c.«namespace») now with
    _ | data
  · simp [hcc, hp]
  · cases data with
    | deployments l =>
      by_cases hl : l.isEmpty
      · simp [hcc, hl, hp]
      · simp [hcc, hl, hp] at hflag
    | pods l => simp [hcc, hp]
    | events l => simp [hcc, hp]

/-- C3, counterexample: a cache entry for `pods-default` that exists and
is fresh (`now − fetched_at = 1 < 30`) but holds an empty list is NOT
served — `if cached:` is Python truthiness — so the call performs a
second live read inside the TTL window and returns the live result. -/
theorem c3_counterexample_fresh_empty_entry_refetched :
    K8sClient.is_cache_valid clientFreshEmptyCache "pods-default" 6 = true ∧
    (clientFreshEmptyCache.get_pods none 6 clusterOnePod).2.2 = true ∧
    (clientFreshEmptyCache.get_pods none 6 clusterOnePod).1 =
      [podEntry 6 healthyRawPod] := by
  decide

/-- C3, amended: each of the three list reads (`get_pods`,
`get_events`, `get_deployments`) is served from the cache iff an entry
for its `(kind, scope)` key exists, `now − fetched_at < 30` (the TTL),
and the cached payload is non-empty; a hit returns the cached list with
the state unchanged; on a miss a live fetch is performed, and a
successful fetch replaces the entry while a failed one leaves the cache
unchanged.  Consequently two `get_pods` calls in the same scope within
the TTL window perform exactly one live read provided the first one
fetched at least one pod, and a call after the TTL elapses performs a
second live read. -/
theorem c3_cache_ttl_amended :
    (∀ (c : K8sClient) (ns : Option String) (now : Nat) (cluster : Cluster),
      (c.get_pods ns now cluster).2.2 = false ↔
        ∃ l t,
          assocFind c.cache ("pods-" ++ pyOrStr ns c.«namespace») =
            some ⟨.pods l, t⟩ ∧ now - t < c.cache_ttl ∧ l ≠ []) ∧
    (∀ (c : K8sClient) (ns : Option String) (now : Nat) (cluster : Cluster),
      (c.get_events ns now cluster).2.2 = false ↔
        ∃ l t,
          assocFind c.cache ("events-" ++ pyOrStr ns c.«namespace») =
            some ⟨.events l, t⟩ ∧ now - t < c.cache_ttl ∧ l ≠ []) ∧
    (∀ (c : K8sClient) (ns : Option String) (now : Nat) (cluster : Cluster),
      (c.get_deployments ns now cluster).2.2 = false ↔
        ∃ l t,
          assocFind c.cache ("deployments-" ++ pyOrStr ns c.«namespace») =
            some ⟨.deployments l, t⟩ ∧ now - t < c.cache_ttl ∧ l ≠ []) ∧
    (∀ (c : K8sClient) (ns : Option String) (now : Nat) (cluster : Cluster)
        (l : List PodDict) (t : Nat),
      assocFind c.cache ("pods-" ++ pyOrStr ns c.«namespace») =
        some ⟨.pods l, t⟩ →
      now - t < c.cache_ttl → l ≠ [] →
      c.get_pods ns now cluster = (l, c, false)) ∧
    (∀ (c : K8sClient) (ns : Option String) (now : Nat) (cluster : Cluster)
        (l : List EventDict) (t : Nat),
      assocFind c.cache ("events-" ++ pyOrStr ns c.«namespace») =
        some ⟨.events l, t⟩ →
      now - t < c.cache_ttl → l ≠ [] →
      c.get_events ns now cluster = (l, c, false)) ∧
    (∀ (c : K8sClient) (ns : Option String) (now : Nat) (cluster : Cluster)
        (l : List DeploymentDict) (t : Nat),
      assocFind c.cache ("deployments-" ++ pyOrStr ns c.«namespace») =
        some ⟨.deployments l, t⟩ →
      now - t < c.cache_ttl → l ≠ [] →
      c.get_deployments ns now cluster = (l, c, false)) ∧
    (∀ (c : K8sClient) (ns : Option String) (now : Nat) (cluster : Cluster)
        (raw : List RawPod),
      (c.get_pods ns now cluster).2.2 = true →
      cluster.pods (pyOrStr ns c.«namespace») = some raw →
      c.get_pods ns now cluster =
        (raw.map (podEntry now),
         c.set_cache ("pods-" ++ pyOrStr ns c.«namespace»)
           (.pods (raw.map (podEntry now))) now, true)) ∧
    (∀ (c : K8sClient) (ns : Option String) (now : Nat) (cluster : Cluster)
        (raw : List RawEvent),
      (c.get_events ns now cluster).2.2 = true →
      cluster.events (pyOrStr ns c.«namespace») = some raw →
      c.get_events ns now cluster =
        (raw.map (eventEntry now),
         c.set_cache ("events-" ++ pyOrStr ns c.«namespace»)
           (.events (raw.map (eventEntry now))) now, true)) ∧
    (∀ (c : K8sClient) (ns : Option String) (now : Nat) (cluster : Cluster)
        (raw : List RawDeployment),
      (c.get_deployments ns now cluster).2.2 = true →
      cluster.deployments (pyOrStr ns c.«namespace») = some raw →
      c.get_deployments ns now cluster =
        (raw.map (deploymentEntry now),
         c.set_cache ("deployments-" ++ pyOrStr ns c.«namespace»)
           (.deployments (raw.map (deploymentEntry now))) now, true)) ∧
    (∀ (c : K8sClient) (ns : Option String) (now : Nat) (cluster : Cluster),
      (c.get_pods ns now cluster).2.2 = true →
      cluster.pods (pyOrStr ns c.«namespace») = none →
      c.get_pods ns now cluster = ([], c, true)) ∧
    (∀ (c : K8sClient) (ns : Option String) (now : Nat) (cluster : Cluster),
      (c.get_events ns now cluster).2.2 = true →
      cluster.events (pyOrStr ns c.«namespace») = none →
      c.get_events ns now cluster = ([], c, true)) ∧
    (∀ (c : K8sClient) (ns : Option String) (now : Nat) (cluster : Cluster),
      (c.get_deployments ns now cluster).2.2 = true →
      cluster.deployments (pyOrStr ns c.«namespace») = none →
      c.get_deployments ns now cluster = ([], c, true)) ∧
    (∀ (c : K8sClient) (ns : Option String) (now₁ now₂ : Nat)
        (cluster : Cluster),
      (c.get_pods ns now₁ cluster).2.2 = true →
      (c.get_pods ns now₁ cluster).1 ≠ [] →
      (now₂ - now₁ < c.cache_ttl →
        ((c.get_pods ns now₁ cluster).2.1.get_pods ns now₂ cluster).2.2 =
            false ∧
          ((c.get_pods ns now₁ cluster).2.1.get_pods ns now₂ cluster).1 =
            (c.get_pods ns now₁ cluster).1) ∧
      (c.cache_ttl ≤ now₂ - now₁ →
        ((c.get_pods ns now₁ cluster).2.1.get_pods ns now₂ cluster).2.2 =
          true)) := by
  refine ⟨?_, ?_, ?_, get_pods_hit, get_events_hit, get_deployments_hit,
    get_pods_miss_success, get_events_miss_success,
    get_deployments_miss_success, get_pods_miss_failure,
    get_events_miss_failure, get_deployments_miss_failure, ?_⟩
  · intro c ns now cluster
    constructor
    · intro hflag
      by_contra hne
      push_neg at hne
      have hmiss := get_pods_miss_flag c ns now cluster (fun l t hf hc =>
        hc.2 (hne l t hf hc.1))
      rw [hmiss] at hflag
      cases hflag
    · rintro ⟨l, t, hf, hv, hne⟩
      rw [get_pods_hit c ns now cluster l t hf hv hne]
  · intro c ns now cluster
    constructor
    · intro hflag
      by_contra hne
      push_neg at hne
      have hmiss := get_events_miss_flag c ns now cluster (fun l t hf hc =>
        hc.2 (hne l t hf hc.1))
      rw [hmiss] at hflag
      cases hflag
    · rintro ⟨l, t, hf, hv, hne⟩
      rw [get_events_hit c ns now cluster l t hf hv hne]
  · intro c ns now cluster
    constructor
    · intro hflag
      by_contra hne
      push_neg at hne
      have hmiss := get_deployments_miss_flag c ns now cluster
        (fun l t hf hc => hc.2 (hne l t hf hc.1))
      rw [hmiss] at hflag
      cases hflag
    · rintro ⟨l, t, hf, hv, hne⟩
      rw [get_deployments_hit c ns now cluster l t hf hv hne]
  · intro c ns now₁ now₂ cluster hflag hres
    rcases hp : cluster.pods (pyOrStr ns c.«namespace») with _ | raw
    · rw [get_pods_miss_failure c ns now₁ cluster hflag hp] at hres
      exact absurd rfl hres
    · have hfirst := get_pods_miss_success c ns now₁ cluster raw hflag hp
      rw [hfirst] at hres ⊢
      have hfind :
          assocFind
            (c.set_cache ("pods-" ++ pyOrStr ns c.«namespace»)
              (.pods (raw.map (podEntry now₁))) now₁).cache
            ("pods-" ++
              pyOrStr ns
                (c.set_cache ("pods-" ++ pyOrStr ns c.«namespace»)
                  (.pods (raw.map (podEntry now₁))) now₁).«namespace») =
            some ⟨.pods (raw.map (podEntry now₁)), now₁⟩ := by
        simp only [K8sClient.set_cache]
        exact assocFind_assocSet c.cache _ _
      constructor
      · intro hwin
        have hhit := get_pods_hit _ ns now₂ cluster _ now₁ hfind hwin hres
        rw [hhit]
        exact ⟨rfl, rfl⟩
      · intro hold
        apply get_pods_miss_flag
        intro l t hf hc
        rw [hfind] at hf
        injection hf with hf
        cases hf
        simp only [K8sClient.set_cache] at hc
        omega

/-- Witness for C3: a first `get_pods` live read at `now = 0` against
the one-pod cluster, a cache hit at `now = 10`, a new live read at
`now = 40`; a `get_events` cache hit on a fresh non-empty entry; and a
`get_deployments` live-read failure that leaves the client state
unchanged. -/
theorem c3_cache_ttl_amended_witness :
    (((K8sClient.mk "default" [] 30).get_pods none 0 clusterOnePod).2.1.get_pods
        none 10 clusterOnePod).2.2 = false ∧
    (((K8sClient.mk "default" [] 30).get_pods none 0 clusterOnePod).2.1.get_pods
        none 10 clusterOnePod).1 =
      ((K8sClient.mk "default" [] 30).get_pods none 0 clusterOnePod).1 ∧
    (((K8sClient.mk "default" [] 30).get_pods none 0 clusterOnePod).2.1.get_pods
        none 40 clusterOnePod).2.2 = true ∧
    clientFreshEventsCache.get_events none 6 clusterTwoEvents =
      ([eventEntry 0 rawEventOld], clientFreshEventsCache, false) ∧
    (K8sClient.mk "default" [] 30).get_deployments none 0 clusterDown =
      ([], K8sClient.mk "default" [] 30, true) :=
  ⟨((c3_cache_ttl_amended.2.2.2.2.2.2.2.2.2.2.2.2
      (K8sClient.mk "default" [] 30) none 0 10
      clusterOnePod (by decide) (by decide)).1 (by decide)).1,
   ((c3_cache_ttl_amended.2.2.2.2.2.2.2.2.2.2.2.2
      (K8sClient.mk "default" [] 30) none 0 10
      clusterOnePod (by decide) (by decide)).1 (by decide)).2,
   (c3_cache_ttl_amended.2.2.2.2.2.2.2.2.2.2.2.2
      (K8sClient.mk "default" [] 30) none 0 40
      clusterOnePod (by decide) (by decide)).2 (by decide),
   c3_cache_ttl_amended.2.2.2.2.1 clientFreshEventsCache none 6
     clusterTwoEvents [eventEntry 0 rawEventOld] 5 (by decide) (by decide)
     (by decide),
   c3_cache_ttl_amended.2.2.2.2.2.2.2.2.2.2.2.1
     (K8sClient.mk "default" [] 30) none 0 clusterDown (by decide) rfl⟩

/-- One step of the first-occurrence key fold. -/
theorem dedupKeysSpec_concat (events : List EventDict) (e : EventDict) :
    dedupKeysSpec (events ++ [e]) =
      if eventKey e ∈ dedupKeysSpec events then dedupKeysSpec events
      else dedupKeysSpec events ++ [eventKey e] := by
  simp [dedupKeysSpec, List.foldl_append]

/-- The key fold only ever extends its accumulator. -/
theorem dedupKeys_foldl_mono (events : List EventDict) :
    ∀ (acc : List String) (k : String), k ∈ acc →
      k ∈ events.foldl
        (fun ks e => if eventKey e ∈ ks then ks else ks ++ [eventKey e])
        acc := by
  induction events with
  | nil => intro acc k hk; simpa using hk
  | cons e rest ih =>
    intro acc k hk
    simp only [List.foldl_cons]
    by_cases h : eventKey e ∈ acc <;> simp [h] <;>
      exact ih _ k (by simp [hk])

/-- The key fold preserves distinctness of the accumulator. -/
theorem dedupKeys_foldl_nodup (events : List EventDict) :
    ∀ (acc : List String), acc.Nodup →
      (events.foldl
        (fun ks e => if eventKey e ∈ ks then ks else ks ++ [eventKey e])
        acc).Nodup := by
  induction events with
  | nil => intro acc h; simpa using h
  | cons e rest ih =>
    intro acc h
    simp only [List.foldl_cons]
    by_cases hk : eventKey e ∈ acc
    · simpa [hk] using ih acc h
    · refine ih _ ?_
      simp [hk, List.nodup_append, h]

/-- The group keys are distinct. -/
theorem dedupKeysSpec_nodup (events : List EventDict) :
    (dedupKeysSpec events).Nodup :=
  dedupKeys_foldl_nodup events [] (by simp)

/-- Every event's key occurs among the group keys. -/
theorem eventKey_mem_dedupKeysSpec (events : List EventDict) :
    ∀ (acc : List String) (e : EventDict), e ∈ events →
      eventKey e ∈ events.foldl
        (fun ks e => if eventKey e ∈ ks then ks else ks ++ [eventKey e])
        acc := by
  induction events with
  | nil => intro acc e he; simp at he
  | cons e' rest ih =>
    intro acc e he
    simp only [List.foldl_cons]
    rcases List.mem_cons.mp he with h | h
    · subst h
      apply dedupKeys_foldl_mono
      by_cases hk : eventKey e ∈ acc <;> simp [hk]
    · exact ih _ e h

/-- Every group key is some event's key. -/
theorem dedupKeysSpec_sound (events : List EventDict) :
    ∀ (acc : List String) (k : String),
      k ∈ events.foldl
        (fun ks e => if eventKey e ∈ ks then ks else ks ++ [eventKey e])
        acc →
      k ∈ acc ∨ ∃ e ∈ events, eventKey e = k := by
  induction events with
  | nil => intro acc k hk; exact Or.inl (by simpa using hk)
  | cons e rest ih =>
    intro acc k hk
    simp only [List.foldl_cons] at hk
    by_cases h : eventKey e ∈ acc
    · rw [if_pos h] at hk
      rcases ih acc k hk with h' | ⟨e', he', hk'⟩
      · exact Or.inl h'
      · exact Or.inr ⟨e', by simp [he'], hk'⟩
    · rw [if_neg h] at hk
      rcases ih _ k hk with h' | ⟨e', he', hk'⟩
      · rcases List.mem_append.mp h' with h'' | h''
        · exact Or.inl h''
        · exact Or.inr ⟨e, by simp, (List.mem_singleton.mp h'').symm⟩
      · exact Or.inr ⟨e', by simp [he'], hk'⟩

/-- Appending under a key absent from the dict adds a fresh slot at the
end. -/
theorem addToGroups_not_mem (gs : List (String × List EventDict))
    (k : String) (e : EventDict) (h : k ∉ gs.map Prod.fst) :
    addToGroups gs k e = gs ++ [(k, [e])] := by
  induction gs with
  | nil => rfl
  | cons p rest ih =>
    obtain ⟨k', l⟩ := p
    simp only [List.map_cons, List.mem_cons] at h
    push_neg at h
    simp [addToGroups, Ne.symm h.1, ih h.2]

/-- Mapping a function that only changes the slot of an absent key is a
no-op. -/
theorem map_update_not_mem (gs : List (String × List EventDict))
    (k : String) (e : EventDict) (h : k ∉ gs.map Prod.fst) :
    gs.map (fun p => if p.1 = k then (p.1, p.2 ++ [e]) else p) = gs := by
  induction gs with
  | nil => rfl
  | cons p rest ih =>
    obtain ⟨k', l⟩ := p
    simp only [List.map_cons, List.mem_cons] at h
    push_neg at h
    simp [Ne.symm h.1, ih h.2]

/-- Appending under a key present in a distinct-keyed dict extends
exactly that slot in place. -/
theorem addToGroups_mem (gs : List (String × List EventDict))
    (k : String) (e : EventDict) (hmem : k ∈ gs.map Prod.fst)
    (hnd : (gs.map Prod.fst).Nodup) :
    addToGroups gs k e =
      gs.map (fun p => if p.1 = k then (p.1, p.2 ++ [e]) else p) := by
  induction gs with
  | nil => simp at hmem
  | cons p rest ih =>
    obtain ⟨k', l⟩ := p
    simp only [List.map_cons, List.nodup_cons] at hnd
    by_cases h : k' = k
    · subst h
      simp [addToGroups, map_update_not_mem rest k' e hnd.1]
    · simp only [List.map_cons, List.mem_cons] at hmem
      rcases hmem with h' | h'
      · exact absurd h'.symm h
      · simp [addToGroups, h, ih h' hnd.2]

/-- One insertion step turns the declarative grouping of `events` into
that of `events ++ [e]`. -/
theorem specGroups_concat (events : List EventDict) (e : EventDict) :
    specGroups (events ++ [e]) =
      addToGroups (specGroups events) (eventKey e) e := by
  have hkeys : (specGroups events).map Prod.fst = dedupKeysSpec events := by
    have hid :
        (Prod.fst ∘ fun k =>
          (k, events.filter (fun e' => eventKey e' == k))) = id :=
      funext fun _ => rfl
    rw [specGroups, List.map_map, hid, List.map_id]
  by_cases hk : eventKey e ∈ dedupKeysSpec events
  · rw [addToGroups_mem _ _ _ (hkeys ▸ hk)
      (hkeys ▸ dedupKeysSpec_nodup events)]
    simp only [specGroups, dedupKeysSpec_concat, if_pos hk, List.map_map]
    refine List.map_congr_left (fun k _ => ?_)
    simp only [Function.comp_apply, List.filter_append]
    by_cases h : k = eventKey e
    · subst h
      simp
    · simp [Ne.symm h, h]
  · rw [addToGroups_not_mem _ _ _ (hkeys ▸ hk)]
    simp only [specGroups, dedupKeysSpec_concat, if_neg hk, List.map_append,
      List.map_singleton]
    have hfilter : events.filter (fun e' => eventKey e' == eventKey e) = [] := by
      rw [List.filter_eq_nil_iff]
      intro e' he'
      simp only [beq_iff_eq]
      intro hkey
      exact hk (hkey ▸ eventKey_mem_dedupKeysSpec events [] e' he')
    congr 1
    · refine List.map_congr_left (fun k hkmem => ?_)
      have hne : eventKey e ≠ k := by
        intro h
        exact hk (h ▸ hkmem)
      simp [List.filter_append, hne]
    · simp [List.filter_append, hfilter]

/-- The `event_groups` dict built by the fold of `Discovery._scan_events`
is exactly the declarative grouping. -/
theorem event_groups_eq_specGroups (events : List EventDict) :
    events.foldl (fun gs e => addToGroups gs (eventKey e) e) [] =
      specGroups events := by
  induction events using List.reverseRecOn with
  | nil => rfl
  | append_singleton evs e ih =>
    rw [List.foldl_append, List.foldl_cons, List.foldl_nil, ih,
      ← specGroups_concat]

/-- The description of an event issue never exceeds 200 characters. -/
theorem eventIssue_description_le (now : Nat) (e : EventDict) :
    strLen (eventIssue now e).description ≤ 200 := by
  have hmk : ∀ (l : List Char), (String.mk l).data = l := fun _ => rfl
  have h3 : ("...".data).length = 3 := rfl
  simp only [eventIssue, strLen, strTake]
  split
  · rename_i h
    rw [String.data_append, List.length_append, hmk, List.length_take, h3]
    omega
  · rename_i h
    omega

/-- C4, counterexample: two recent events share the group key
`Pod-web-BackOff`; the later one (`last_timestamp = 1000 > 0`) carries
message `msg-new`, yet the emitted issue is built from the FIRST event
in input order (`recent_events[0]`), so its description is `msg-old`,
not the most recent event's message. -/
theorem c4_counterexample_first_event_not_most_recent :
    ((discoveryDefault.scan_events none 2000 clusterTwoEvents).1.map
        (fun i => i.description)) = ["msg-old"] ∧
    Discovery.is_recent (some 0) 2000 = true ∧
    Discovery.is_recent (some 1000) 2000 = true ∧
    eventKey (eventEntry 2000 rawEventOld) =
      eventKey (eventEntry 2000 rawEventNew) ∧
    rawEventOld.last_timestamp = some 0 ∧
    rawEventNew.last_timestamp = some 1000 ∧
    rawEventOld.message ≠ rawEventNew.message := by
  decide

/-- C4, amended: the event-correlation rule groups events by the
concatenated key `f"{object_kind}-{object_name}-{reason}"` (a Python
dict in insertion order), keeps within each group only the events
younger than one hour, and emits exactly one issue per group containing
a recent event, built by `eventIssue` from the FIRST recent event in
input order: CRITICAL if that event's reason contains `"Error"` or
`"Failed"`, WARNING if its type is `"Warning"`, else INFO, with the
description truncated to at most 200 characters (a 197-character prefix
plus an ellipsis when the message was longer than 200). -/
theorem c4_event_correlation_amended :
    ∀ (d : Discovery) («namespace» : Option String) (now : Nat)
      (cluster : Cluster),
      (d.scan_events «namespace» now cluster).1 =
        scanEventsSpec now
          (d.k8s_client.get_events (d.ruleNs «namespace») now cluster).1 ∧
      ∀ i ∈ (d.scan_events «namespace» now cluster).1,
        strLen i.description ≤ 200 := by
  intro d ns now cluster
  rcases hev : d.k8s_client.get_events (d.ruleNs ns) now cluster with
    ⟨events, c, flag⟩
  constructor
  · simp only [Discovery.scan_events, hev]
    rw [event_groups_eq_specGroups, specGroups, scanEventsSpec,
      List.filterMap_map]
    rfl
  · intro i hi
    simp only [Discovery.scan_events, hev] at hi
    rcases List.mem_filterMap.mp hi with ⟨kg, _, hf⟩
    rcases hm : kg.2.filter (fun e => Discovery.is_recent e.timestamp now) with
      _ | ⟨first, rest⟩
    · rw [hm] at hf
      cases hf
    · rw [hm] at hf
      simp only [Option.some.injEq] at hf
      subst hf
      exact eventIssue_description_le now first

/-- Witness for C4: the two-event cluster, where the rule's output
matches the declarative grouping and the description bound holds for
the produced issue. -/
theorem c4_event_correlation_amended_witness :
    (discoveryDefault.scan_events none 2000 clusterTwoEvents).1 =
      scanEventsSpec 2000
        (discoveryDefault.k8s_client.get_events (discoveryDefault.ruleNs none)
          2000 clusterTwoEvents).1 ∧
    strLen (eventIssue 2000 (eventEntry 2000 rawEventOld)).description ≤ 200 :=
  ⟨(c4_event_correlation_amended discoveryDefault none 2000
      clusterTwoEvents).1,
   (c4_event_correlation_amended discoveryDefault none 2000
      clusterTwoEvents).2 (eventIssue 2000 (eventEntry 2000 rawEventOld))
     (by decide)⟩

end Stargazer
